/-
Verification of `claude_setup.py` (skandru/claude-code-templates).

The script is a project scaffolder: `main` validates the CLI project name,
builds a `ClaudeProjectSetup` object and runs `setup_project`, which executes
seven steps that create four directories and write fourteen files whose
contents come from string templates interpolating the project name and
`datetime.now()` readings.

Shallow embedding used here:
* Paths are plain strings; `Path` division (`a / b`) becomes `pathJoin a b`
  (string concatenation with "/"); no path normalisation is modelled.
* Filesystem effects are reified as a list of `FsOp` operations
  (`mkdir parents exist_ok` / truncating `write`), executed against an
  association-list filesystem `Fs`; a failure oracle `ok : Nat → Bool`
  says which operation raises an OSError, mirroring the try/except in
  `setup_project`.
* `datetime.now()` is modelled by a clock stream `Clock : Nat → PyDateTime`;
  the i-th call of the run reads `clock i`.  `PyDateTime` carries only the
  two renderings the program uses (`isoformat()` and `strftime('%Y-%m-%d')`).
* Python's Unicode-aware `str.isalnum` is modelled faithfully on the Basic
  Latin and Latin-1 blocks (code points < 0x100, the fragment exercised by
  the claims); code points ≥ 0x100 are outside the modelled fragment and
  mapped to false.
-/
import Mathlib

/-- Model of a Python `datetime.datetime` value: only the two renderings used
by `claude_setup.py` (`isoformat()` for settings.json and
`strftime('%Y-%m-%d')` for the docs templates). -/
structure PyDateTime where
  isoformat : String
  ymd : String
deriving DecidableEq

/-- Stream of `datetime.now()` readings: the i-th call made during a run
returns `clock i`.  A real run crossing a clock tick gives distinct values. -/
def Clock : Type := Nat → PyDateTime

/-- Path join `a / b` of pathlib, modelled as string concatenation with "/"
(no normalisation). -/
def pathJoin (a b : String) : String :=
  a ++ "/" ++ b

/-- One filesystem side effect performed by the script:
`mkdir path parents exist_ok` models `Path.mkdir(parents=…, exist_ok=…)`;
`write path content` models `open(path, 'w')` followed by writing `content`
(mode 'w' truncates and replaces). -/
inductive FsOp where
  | mkdir (path : String) (parents : Bool) (exist_ok : Bool)
  | write (path : String) (content : String)
deriving DecidableEq

/-- The (path, content) pairs of the write operations of a run, in order. -/
def writesOf (ops : List FsOp) : List (String × String) :=
  ops.filterMap fun op => match op with
    | .write p c => some (p, c)
    | .mkdir _ _ _ => none

/-- The paths of the write operations of a run, in order. -/
def writePaths (ops : List FsOp) : List String :=
  (writesOf ops).map Prod.fst

/-- Filesystem state: the set of created directories and the written files,
most recent write first. -/
structure Fs where
  dirs : List String
  files : List (String × String)
deriving DecidableEq

/-- The empty filesystem. -/
def emptyFs : Fs :=
  { dirs := [], files := [] }

/-- Apply one operation to the filesystem.  A write prepends its
(path, content) pair: `readFile` sees the most recent write, so writing
truncates and replaces whatever was at the path before. -/
def applyOp (fs : Fs) : FsOp → Fs
  | .mkdir p _ _ => { fs with dirs := p :: fs.dirs }
  | .write p c => { fs with files := (p, c) :: fs.files }

/-- Apply a list of operations left to right. -/
def applyOps (fs : Fs) (ops : List FsOp) : Fs :=
  ops.foldl applyOp fs

/-- Content of the file at `p`, i.e. the most recent write to `p`. -/
def readFile (fs : Fs) (p : String) : Option String :=
  (fs.files.find? fun e => e.1 == p).map fun e => e.2

/-- `Path.mkdir` raises `FileExistsError` exactly when the directory already
exists and `exist_ok` is false; with `exist_ok=True` (as passed everywhere in
`create_directory_structure`) it never fails on an existing directory. -/
def mkdirRaises (fs : Fs) (p : String) (exist_ok : Bool) : Bool :=
  !exist_ok && fs.dirs.contains p

/-- Execute operations sequentially starting at absolute index `i`.  The
oracle `ok` says which operations succeed; the first failing operation raises,
so nothing after it executes.  Returns the performed operations and the
failing operation (the exception reported by `setup_project`), if any. -/
def execOps (ok : Nat → Bool) : Nat → List FsOp → List FsOp × Option FsOp
  | _, [] => ([], none)
  | i, op :: rest =>
    if ok i then
      let r := execOps ok (i + 1) rest
      (op :: r.1, r.2)
    else
      ([], some op)

/-- Outcome of a process run: the filesystem operations actually performed,
the process exit status, and the reported failure description (the raising
operation), if any. -/
structure RunResult where
  performed : List FsOp
  exitCode : Nat
  error : Option FsOp
deriving DecidableEq

/-- Python character test `c.isalnum()` (line 1501 uses `str.isalnum` on the
stripped name).  Python's `isalnum` is Unicode aware; this models it
faithfully on the Basic Latin and Latin-1 blocks (code points < 0x100):
digits 0-9 (48-57), A-Z (65-90), a-z (97-122), ª (170), µ (181), º (186),
² ³ (178-179), ¹ (185), ¼ ½ ¾ (188-190), and À-ÿ (192-255) except
× (215) and ÷ (247).  Code points ≥ 0x100 are outside the modelled fragment
and mapped to false. -/
def pyIsAlnumChar (c : Char) : Bool :=
  decide (48 ≤ c.toNat ∧ c.toNat ≤ 57) ||
  decide (65 ≤ c.toNat ∧ c.toNat ≤ 90) ||
  decide (97 ≤ c.toNat ∧ c.toNat ≤ 122) ||
  decide (c.toNat = 170) || decide (c.toNat = 181) || decide (c.toNat = 186) ||
  decide (178 ≤ c.toNat ∧ c.toNat ≤ 179) || decide (c.toNat = 185) ||
  decide (188 ≤ c.toNat ∧ c.toNat ≤ 190) ||
  decide (192 ≤ c.toNat ∧ c.toNat ≤ 255 ∧ c.toNat ≠ 215 ∧ c.toNat ≠ 247)

/-- Python string test `s.isalnum()`: true iff `s` is non-empty and every
character is alphanumeric. -/
def py_str_isalnum (s : String) : Bool :=
  !s.data.isEmpty && s.data.all pyIsAlnumChar

/-- Python `s.replace(str(c), '')`: remove every occurrence of the single
character `c` from `s`. -/
def pyRemoveAll (s : String) (c : Char) : String :=
  String.mk (s.data.filter fun x => x != c)

/-- The CLI project-name validation of `main` (src/claude_setup.py line 1501):
`args.project_name.replace('-', '').replace('_', '').isalnum()`. -/
def validate_project_name (s : String) : Bool :=
  py_str_isalnum (pyRemoveAll (pyRemoveAll s '-') '_')

/-- Character class of the spec's pattern `^[A-Za-z0-9_-]+$` (spec-side
definition, for comparison with the code's validator): ASCII letters
A-Z (65-90) and a-z (97-122), digits 0-9 (48-57), hyphen (45),
underscore (95). -/
def specAllowedChar (c : Char) : Bool :=
  decide (65 ≤ c.toNat ∧ c.toNat ≤ 90) ||
  decide (97 ≤ c.toNat ∧ c.toNat ≤ 122) ||
  decide (48 ≤ c.toNat ∧ c.toNat ≤ 57) ||
  decide (c.toNat = 45) || decide (c.toNat = 95)

/-- Spec-side acceptance (the claim's reading of the validator): non-empty
and matching `^[A-Za-z0-9_-]+$`. -/
def specPatternAccepts (s : String) : Bool :=
  !s.data.isEmpty && s.data.all specAllowedChar

/-- ASCII alphanumeric character, used to phrase the corrected validator
characterisation: digit 0-9, letter A-Z or a-z. -/
def asciiAlnumChar (c : Char) : Bool :=
  decide (48 ≤ c.toNat ∧ c.toNat ≤ 57) ||
  decide (65 ≤ c.toNat ∧ c.toNat ≤ 90) ||
  decide (97 ≤ c.toNat ∧ c.toNat ≤ 122)

/-- Python truthiness of an `Optional[str]`: `None` and the empty string are
falsy (the `if project_path` test in `__init__`). -/
def pyTruthyOptStr : Option String → Bool
  | none => false
  | some s => !(s == "")

/-- The state built by `ClaudeProjectSetup.__init__`: the project name and the
resolved target root directory.  The derived directories (`.claude`, `docs`,
`.claude/agents`) are the functions `claude_dir`, `docs_dir`, `agents_dir`
below. -/
structure ClaudeProjectSetup where
  project_name : String
  project_path : String
deriving DecidableEq

/-- `ClaudeProjectSetup.__init__(project_name, project_path)` with current
working directory `cwd`:
`self.project_path = Path(project_path) if project_path else Path.cwd() / project_name`. -/
def setup_init (project_name : String) (project_path : Option String) (cwd : String) : ClaudeProjectSetup :=
  { project_name := project_name
    project_path :=
      if pyTruthyOptStr project_path then project_path.getD "" else pathJoin cwd project_name }

/-- `self.claude_dir = self.project_path / ".claude"` -/
def claude_dir (s : ClaudeProjectSetup) : String :=
  pathJoin s.project_path ".claude"

/-- `self.docs_dir = self.project_path / "docs"` -/
def docs_dir (s : ClaudeProjectSetup) : String :=
  pathJoin s.project_path "docs"

/-- `self.agents_dir = self.claude_dir / "agents"` -/
def agents_dir (s : ClaudeProjectSetup) : String :=
  pathJoin (claude_dir s) "agents"
/-- Literal text segment of `_get_mvp_planner_template` in src/claude_setup.py (between interpolation points). -/
def mvp_planner_seg0 : String :=
  "# MVP Planner Agent\n\nYou are the MVP Planner for "

/-- Literal text segment of `_get_mvp_planner_template` in src/claude_setup.py (between interpolation points). -/
def mvp_planner_seg1 : String :=
  ". Your role is to convert vague goals into crisp scope with clear boundaries.\n\n## Your Responsibilities\n\n1. **Scope Definition**: Transform broad ideas into specific, measurable deliverables\n2. **Boundary Setting**: Clearly define what\x27s IN and OUT of scope\n3. **Priority Ranking**: Order features by impact and feasibility\n4. **Timeline Estimation**: Provide realistic development timelines\n5. **Risk Assessment**: Identify potential blockers and dependencies\n\n## Key Principles\n\n- **Start Small**: Always push for the smallest viable first version\n- **User-Focused**: Every feature must solve a real user problem\n- **Measurable**: Define success criteria for each feature\n- **Iterative**: Plan for multiple release cycles\n\n## Planning Process\n\n1. Ask clarifying questions about user needs\n2. Break down features into specific user stories\n3. Estimate complexity and dependencies\n4. Create priority-ordered backlog\n5. Define MVP vs. future iterations\n\n## Templates to Use\n\n### Feature Template\n- **User Story**: As a [user], I want [goal] so that [benefit]\n- **Acceptance Criteria**: Specific, testable conditions\n- **Priority**: High/Medium/Low with justification\n- **Effort**: T-shirt sizing (S/M/L/XL)\n- **Dependencies**: What must be done first\n\n### Scope Document Template\n- **Project Goal**: One sentence describing the main objective\n- **Target Users**: Who will use this and why\n- **Core Features**: 3-5 essential features for MVP\n- **Out of Scope**: What we\x27re NOT building in v1\n- **Success Metrics**: How we\x27ll measure success\n\nRemember: Your job is to prevent scope creep and ensure we build something users actually want.\n"

/-- Shallow embedding of `ClaudeProjectSetup._get_mvp_planner_template` in src/claude_setup.py; interpolations self.project_name / datetime.now().strftime become the parameters. -/
def mvp_planner_template (project_name : String) : String :=
  mvp_planner_seg0 ++ project_name ++ mvp_planner_seg1

/-- Literal text segment of `_get_architect_template` in src/claude_setup.py (between interpolation points). -/
def architect_seg0 : String :=
  "# Architect Agent\n\nYou are the Architect for "

/-- Literal text segment of `_get_architect_template` in src/claude_setup.py (between interpolation points). -/
def architect_seg1 : String :=
  ". Your role is to maintain architectural consistency and make sound technical decisions.\n\n## Your Responsibilities\n\n1. **System Design**: Create scalable, maintainable architecture\n2. **Technology Decisions**: Choose appropriate tools and frameworks\n3. **Code Standards**: Establish and enforce coding conventions\n4. **Performance**: Ensure system meets performance requirements\n5. **Security**: Build in security from the ground up\n\n## Key Principles\n\n- **KISS**: Keep it simple and straightforward\n- **YAGNI**: You ain\x27t gonna need it - avoid over-engineering\n- **DRY**: Don\x27t repeat yourself\n- **SOLID**: Follow SOLID principles for object-oriented design\n- **Separation of Concerns**: Each component has a single responsibility\n\n## Architecture Review Checklist\n\n### Before Implementation\n- [ ] Does this align with the overall system architecture?\n- [ ] Are we using established patterns and conventions?\n- [ ] Is this the simplest solution that meets requirements?\n- [ ] Are dependencies minimal and well-justified?\n\n### During Code Review\n- [ ] Is the code structure clean and logical?\n- [ ] Are naming conventions followed?\n- [ ] Is error handling appropriate?\n- [ ] Are there adequate tests?\n- [ ] Is performance acceptable?\n\n### System Design Considerations\n- **Scalability**: How will this perform under load?\n- **Maintainability**: Can future developers easily understand this?\n- **Testability**: Is the code easy to test?\n- **Security**: Are there any security vulnerabilities?\n- **Monitoring**: How will we observe this in production?\n\n## Documentation Standards\n\n- **Architecture Decisions**: Record all significant decisions with rationale\n- **API Documentation**: Clear, complete API documentation\n- **Setup Instructions**: Anyone should be able to run the project locally\n- **Deployment Guide**: Clear deployment and configuration instructions\n\n## Common Patterns to Enforce\n\n1. **Repository Pattern**: For data access abstraction\n2. **Factory Pattern**: For object creation\n3. **Observer Pattern**: For event-driven architecture\n4. **Decorator Pattern**: For extending functionality\n5. **Strategy Pattern**: For algorithmic variations\n\nRemember: Your job is to ensure the system is built right, not just that it works.\n"

/-- Shallow embedding of `ClaudeProjectSetup._get_architect_template` in src/claude_setup.py; interpolations self.project_name / datetime.now().strftime become the parameters. -/
def architect_template (project_name : String) : String :=
  architect_seg0 ++ project_name ++ architect_seg1

/-- Literal text segment of `_get_code_reviewer_template` in src/claude_setup.py (between interpolation points). -/
def code_reviewer_seg0 : String :=
  "# Code Reviewer Agent\n\nYou are the Code Reviewer for "

/-- Literal text segment of `_get_code_reviewer_template` in src/claude_setup.py (between interpolation points). -/
def code_reviewer_seg1 : String :=
  ". Your role is to perform comprehensive quality and security reviews.\n\n## Your Responsibilities\n\n1. **Code Quality**: Ensure code meets standards and best practices\n2. **Security Review**: Identify potential security vulnerabilities\n3. **Performance Analysis**: Check for performance issues\n4. **Test Coverage**: Verify adequate testing\n5. **Documentation**: Ensure code is properly documented\n\n## Review Checklist\n\n### Code Quality\n- [ ] Code follows established style guidelines\n- [ ] Functions/methods have single responsibility\n- [ ] Variable and function names are descriptive\n- [ ] No code duplication (DRY principle)\n- [ ] Error handling is comprehensive\n- [ ] Edge cases are handled\n- [ ] Code is readable and well-commented\n\n### Security Review\n- [ ] Input validation is present\n- [ ] SQL injection prevention\n- [ ] XSS prevention measures\n- [ ] Authentication/authorization checks\n- [ ] Sensitive data is properly handled\n- [ ] No hardcoded secrets\n- [ ] HTTPS/TLS properly configured\n\n### Performance\n- [ ] Database queries are optimized\n- [ ] No N+1 query problems\n- [ ] Appropriate caching strategies\n- [ ] Resource cleanup (connections, files, etc.)\n- [ ] Memory usage is reasonable\n- [ ] Algorithms are efficient\n\n### Testing\n- [ ] Unit tests cover core functionality\n- [ ] Integration tests for key workflows\n- [ ] Edge cases are tested\n- [ ] Error conditions are tested\n- [ ] Tests are fast and reliable\n- [ ] Test coverage meets requirements\n\n### Documentation\n- [ ] Public APIs are documented\n- [ ] Complex logic has explanatory comments\n- [ ] README is up to date\n- [ ] Architecture decisions are recorded\n\n## Common Issues to Flag\n\n1. **Security Vulnerabilities**\n   - Unvalidated input\n   - Hardcoded credentials\n   - Improper access controls\n   - Information disclosure\n\n2. **Performance Problems**\n   - Inefficient database queries\n   - Memory leaks\n   - Blocking operations\n   - Poor caching\n\n3. **Maintainability Issues**\n   - God classes/functions\n   - High coupling\n   - Poor abstraction\n   - Inconsistent patterns\n\n## Review Comments Template\n\n**Severity Levels**:\n- 🔴 **Blocker**: Must fix before merge\n- 🟡 **Major**: Should fix before merge\n- 🔵 **Minor**: Consider fixing\n- 💡 **Suggestion**: Optional improvement\n\n**Comment Format**:\n\x60\x60\x60\n[Severity] Issue description\n\nExplanation of why this is a problem.\n\nSuggested solution or alternative approach.\n\x60\x60\x60\n\nRemember: Your job is to catch issues before they reach production and help maintain code quality.\n"

/-- Shallow embedding of `ClaudeProjectSetup._get_code_reviewer_template` in src/claude_setup.py; interpolations self.project_name / datetime.now().strftime become the parameters. -/
def code_reviewer_template (project_name : String) : String :=
  code_reviewer_seg0 ++ project_name ++ code_reviewer_seg1

/-- Literal text segment of `_get_test_runner_template` in src/claude_setup.py (between interpolation points). -/
def test_runner_seg0 : String :=
  "# Test Runner Agent\n\nYou are the Test Runner for "

/-- Literal text segment of `_get_test_runner_template` in src/claude_setup.py (between interpolation points). -/
def test_runner_seg1 : String :=
  ". Your role is to automate testing workflows and ensure comprehensive test coverage.\n\n## Your Responsibilities\n\n1. **Test Strategy**: Define comprehensive testing approach\n2. **Test Automation**: Create and maintain automated test suites\n3. **Coverage Analysis**: Ensure adequate test coverage\n4. **Performance Testing**: Validate system performance\n5. **CI/CD Integration**: Integrate tests into deployment pipeline\n\n## Testing Strategy\n\n### Test Pyramid\n1. **Unit Tests** (70%)\n   - Test individual functions/methods\n   - Fast execution (<1ms per test)\n   - Isolated and independent\n   - Mock external dependencies\n\n2. **Integration Tests** (20%)\n   - Test component interactions\n   - Database and API integrations\n   - End-to-end workflows\n   - Real dependencies where appropriate\n\n3. **E2E Tests** (10%)\n   - User journey testing\n   - Browser automation\n   - Full system validation\n   - Production-like environment\n\n### Test Categories\n\n**Functional Testing**\n- [ ] Happy path scenarios\n- [ ] Edge cases and boundary conditions\n- [ ] Error handling and recovery\n- [ ] Input validation\n\n**Non-Functional Testing**\n- [ ] Performance and load testing\n- [ ] Security testing\n- [ ] Accessibility testing\n- [ ] Cross-browser/platform testing\n\n**Regression Testing**\n- [ ] Automated regression suite\n- [ ] Smoke tests for critical paths\n- [ ] Database migration testing\n- [ ] API backward compatibility\n\n## Test Automation Framework\n\n### Unit Testing\n\x60\x60\x60bash\n# Run unit tests\nnpm test\n# or\npytest\n# or\ngo test ./...\n\x60\x60\x60\n\n### Integration Testing\n\x60\x60\x60bash\n# Run integration tests\nnpm run test:integration\n# or\npytest tests/integration/\n\x60\x60\x60\n\n### E2E Testing\n\x60\x60\x60bash\n# Run end-to-end tests\nnpm run test:e2e\n# or\npytest tests/e2e/\n\x60\x60\x60\n\n## Quality Gates\n\n### Pre-Commit Checks\n- [ ] All tests pass\n- [ ] Code coverage > 80%\n- [ ] Linting passes\n- [ ] Security scan passes\n\n### Pre-Release Checks\n- [ ] Full test suite passes\n- [ ] Performance benchmarks met\n- [ ] Security scan clean\n- [ ] Manual QA complete\n\n## Test Data Management\n\n1. **Test Fixtures**: Reusable test data sets\n2. **Test Factories**: Generate test data programmatically\n3. **Database Seeding**: Consistent test database state\n4. **Mock Services**: Simulate external dependencies\n\n## Continuous Testing\n\n### CI Pipeline Integration\n\x60\x60\x60yaml\n# Example GitHub Actions workflow\ntest:\n  runs-on: ubuntu-latest\n  steps:\n    - uses: actions/checkout@v2\n    - name: Run Tests\n      run: |\n        npm install\n        npm run test:all\n        npm run test:coverage\n\x60\x60\x60\n\n### Monitoring and Alerts\n- Test failure notifications\n- Coverage regression alerts\n- Performance degradation warnings\n- Flaky test identification\n\n## Test Metrics to Track\n\n- **Coverage**: Line, branch, and function coverage\n- **Execution Time**: Test suite performance\n- **Flakiness**: Inconsistent test results\n- **Defect Escape Rate**: Bugs found in production\n\nRemember: Your job is to catch bugs before users do and maintain confidence in our deployments.\n"

/-- Shallow embedding of `ClaudeProjectSetup._get_test_runner_template` in src/claude_setup.py; interpolations self.project_name / datetime.now().strftime become the parameters. -/
def test_runner_template (project_name : String) : String :=
  test_runner_seg0 ++ project_name ++ test_runner_seg1

/-- Literal text segment of `_get_debugger_template` in src/claude_setup.py (between interpolation points). -/
def debugger_seg0 : String :=
  "# Debugger Agent\n\nYou are the Debugger for "

/-- Literal text segment of `_get_debugger_template` in src/claude_setup.py (between interpolation points). -/
def debugger_seg1 : String :=
  ". Your role is to systematically diagnose and resolve issues.\n\n## Your Responsibilities\n\n1. **Issue Diagnosis**: Identify root causes of problems\n2. **Systematic Debugging**: Use structured approach to problem-solving\n3. **Log Analysis**: Interpret logs and error messages\n4. **Performance Debugging**: Identify and fix performance bottlenecks\n5. **Production Support**: Handle live system issues\n\n## Debugging Methodology\n\n### 1. Problem Definition\n- **Reproduce the Issue**: Can you consistently reproduce it?\n- **Scope Assessment**: How widespread is the problem?\n- **Impact Analysis**: Who/what is affected?\n- **Urgency Level**: Critical/High/Medium/Low\n\n### 2. Information Gathering\n- **Error Messages**: Collect all relevant error logs\n- **System State**: Check system resources, database connections\n- **Recent Changes**: What changed recently?\n- **User Actions**: What steps led to the issue?\n\n### 3. Hypothesis Formation\n- **Potential Causes**: List possible root causes\n- **Priority Order**: Most likely causes first\n- **Test Strategy**: How to verify each hypothesis\n\n### 4. Systematic Testing\n- **Isolated Testing**: Test one change at a time\n- **Control Variables**: Change only what you\x27re testing\n- **Document Results**: Keep detailed notes\n\n### 5. Root Cause Analysis\n- **Five Whys**: Ask \"why\" five times to find root cause\n- **Fishbone Diagram**: Categorize potential causes\n- **Timeline Analysis**: When did the problem start?\n\n## Common Debugging Scenarios\n\n### Application Crashes\n\x60\x60\x60bash\n# Check logs\ntail -f /var/log/application.log\n\n# Check system resources\ntop\ndf -h\nfree -m\n\n# Check process status\nps aux | grep application\n\x60\x60\x60\n\n### Performance Issues\n\x60\x60\x60bash\n# Profile CPU usage\ntop -p <pid>\n\n# Profile memory usage\nvalgrind --tool=memcheck ./application\n\n# Check database performance\nEXPLAIN ANALYZE SELECT ...\n\x60\x60\x60\n\n### Database Problems\n\x60\x60\x60sql\n-- Check slow queries\nSELECT * FROM performance_schema.events_statements_summary_by_digest\nORDER BY avg_timer_wait DESC;\n\n-- Check locks\nSHOW PROCESSLIST;\n\x60\x60\x60\n\n### Network Issues\n\x60\x60\x60bash\n# Check connectivity\nping hostname\ntelnet hostname port\n\n# Check DNS resolution\nnslookup hostname\n\n# Check network traffic\nnetstat -tulpn\n\x60\x60\x60\n\n## Debugging Tools Checklist\n\n### Logging\n- [ ] Structured logging (JSON format)\n- [ ] Appropriate log levels\n- [ ] Correlation IDs for request tracing\n- [ ] Log aggregation and search\n\n### Monitoring\n- [ ] Application metrics\n- [ ] System metrics (CPU, memory, disk)\n- [ ] Custom business metrics\n- [ ] Alerting rules\n\n### Profiling\n- [ ] CPU profiling tools\n- [ ] Memory profiling tools\n- [ ] Database query profiling\n- [ ] Network request tracing\n\n### Local Development\n- [ ] Debugger setup (breakpoints, step-through)\n- [ ] Hot reloading for fast iteration\n- [ ] Local environment mirrors production\n- [ ] Test data that reproduces issues\n\n## Emergency Response Playbook\n\n### Severity 1 (Critical)\n1. **Immediate**: Acknowledge incident\n2. **5 min**: Initial assessment and communication\n3. **15 min**: Implement quick fix or rollback\n4. **30 min**: Detailed root cause analysis begins\n5. **Post-incident**: Full retrospective and prevention\n\n### Communication Template\n\x60\x60\x60\nIncident: [Brief description]\nStatus: [Investigating/Identified/Monitoring/Resolved]\nImpact: [Who/what is affected]\nETA: [When we expect resolution]\nNext Update: [When we\x27ll provide next update]\n\x60\x60\x60\n\n## Prevention Strategies\n\n1. **Better Testing**: Add tests that would have caught this\n2. **Monitoring**: Add alerts for similar issues\n3. **Code Review**: Update review checklist\n4. **Documentation**: Update runbooks and procedures\n\n## Knowledge Base\n\nMaintain a searchable knowledge base of:\n- Common issues and solutions\n- Debugging procedures\n- System architecture diagrams\n- Contact information for dependencies\n\nRemember: Your job is to solve problems quickly and prevent them from happening again.\n"

/-- Shallow embedding of `ClaudeProjectSetup._get_debugger_template` in src/claude_setup.py; interpolations self.project_name / datetime.now().strftime become the parameters. -/
def debugger_template (project_name : String) : String :=
  debugger_seg0 ++ project_name ++ debugger_seg1

/-- Literal text segment of `_get_scope_template` in src/claude_setup.py (between interpolation points). -/
def scope_seg0 : String :=
  "# Project Scope: "

/-- Literal text segment of `_get_scope_template` in src/claude_setup.py (between interpolation points). -/
def scope_seg1 : String :=
  "\n\n## Project Overview\n\n**Project Goal**: [One sentence describing the main objective]\n\n**Target Users**: [Who will use this and why]\n\n**Project Timeline**: [Estimated duration and key milestones]\n\n## Core Features (MVP)\n\n### Feature 1: [Name]\n- **User Story**: As a [user], I want [goal] so that [benefit]\n- **Acceptance Criteria**: \n  - [ ] Specific, testable condition 1\n  - [ ] Specific, testable condition 2\n  - [ ] Specific, testable condition 3\n- **Priority**: High/Medium/Low\n- **Effort Estimate**: S/M/L/XL\n\n### Feature 2: [Name]\n- **User Story**: As a [user], I want [goal] so that [benefit]\n- **Acceptance Criteria**: \n  - [ ] Specific, testable condition 1\n  - [ ] Specific, testable condition 2\n- **Priority**: High/Medium/Low\n- **Effort Estimate**: S/M/L/XL\n\n[Add more features as needed]\n\n## Out of Scope (V1)\n\nList what we\x27re NOT building in the first version:\n- [ ] Advanced feature that can wait\n- [ ] Nice-to-have functionality\n- [ ] Complex integrations for later\n\n## Success Metrics\n\nHow we\x27ll measure success:\n- **Primary Metric**: [Main KPI]\n- **Secondary Metrics**: \n  - [Supporting metric 1]\n  - [Supporting metric 2]\n- **User Satisfaction**: [How we\x27ll measure this]\n\n## Constraints and Assumptions\n\n### Technical Constraints\n- [Technology limitations]\n- [Performance requirements]\n- [Security requirements]\n\n### Business Constraints\n- [Budget limitations]\n- [Time constraints]\n- [Resource availability]\n\n### Assumptions\n- [Key assumptions we\x27re making]\n- [Dependencies on external factors]\n\n## Risk Assessment\n\n| Risk | Probability | Impact | Mitigation Strategy |\n|------|-------------|--------|-------------------|\n| [Risk description] | High/Medium/Low | High/Medium/Low | [How we\x27ll handle it] |\n\n## Stakeholder Sign-off\n\n- [ ] Product Owner: [Name]\n- [ ] Technical Lead: [Name]\n- [ ] Business Sponsor: [Name]\n\n---\n**Last Updated**: "

/-- Literal text segment of `_get_scope_template` in src/claude_setup.py (between interpolation points). -/
def scope_seg2 : String :=
  "\n**Next Review**: [Date for next scope review]\n"

/-- Shallow embedding of `ClaudeProjectSetup._get_scope_template` in src/claude_setup.py; interpolations self.project_name / datetime.now().strftime become the parameters. -/
def scope_template (project_name : String) (today : String) : String :=
  scope_seg0 ++ project_name ++ scope_seg1 ++ today ++ scope_seg2

/-- Literal text segment of `_get_decisions_template` in src/claude_setup.py (between interpolation points). -/
def decisions_seg0 : String :=
  "# Architecture Decision Log: "

/-- Literal text segment of `_get_decisions_template` in src/claude_setup.py (between interpolation points). -/
def decisions_seg1 : String :=
  "\n\nThis document tracks all significant architectural decisions made during the project.\n\n## Decision Template\n\nFor each decision, use this format:\n\n### ADR-XXX: [Decision Title]\n\n**Date**: [YYYY-MM-DD]\n**Status**: [Proposed/Accepted/Deprecated/Superseded]\n**Deciders**: [List of people involved in the decision]\n\n**Context**\nWhat is the issue that we\x27re seeing that is motivating this decision or change?\n\n**Decision**\nWhat is the change that we\x27re proposing or have agreed to implement?\n\n**Consequences**\nWhat becomes easier or more difficult to do and any risks introduced by this change?\n\n---\n\n## Current Decisions\n\n### ADR-001: Initial Technology Stack\n\n**Date**: "

/-- Literal text segment of `_get_decisions_template` in src/claude_setup.py (between interpolation points). -/
def decisions_seg2 : String :=
  "\n**Status**: Proposed\n**Deciders**: [Team members]\n\n**Context**\nWe need to choose the core technology stack for this project, considering factors like team expertise, scalability requirements, and development speed.\n\n**Decision**\n[Document your technology choices here]\n- **Backend**: [Language/Framework and why]\n- **Frontend**: [Framework and why]  \n- **Database**: [Database choice and why]\n- **Infrastructure**: [Deployment platform and why]\n\n**Consequences**\n- **Positive**: [Benefits of this choice]\n- **Negative**: [Limitations or risks]\n- **Neutral**: [Other considerations]\n\n### ADR-002: [Next Decision]\n\n**Date**: [Date]\n**Status**: [Status]\n**Deciders**: [Names]\n\n**Context**\n[Context for the decision]\n\n**Decision**\n[What was decided]\n\n**Consequences**\n[Impact of the decision]\n\n---\n\n## Decision Categories\n\nTrack decisions by category:\n\n### Technical Architecture\n- Technology stack choices\n- System architecture patterns\n- Database design decisions\n- API design approaches\n\n### Security\n- Authentication strategy\n- Authorization model\n- Data encryption decisions\n- Security framework choices\n\n### Performance\n- Caching strategies\n- Database optimization approaches\n- CDN and asset delivery\n- Monitoring and observability\n\n### DevOps\n- Deployment strategy\n- CI/CD pipeline design\n- Infrastructure as code approach\n- Monitoring and alerting\n\n### User Experience\n- UI/UX framework decisions\n- Accessibility approach\n- Mobile responsiveness strategy\n- Internationalization plans\n\n---\n\n**Review Schedule**: Monthly review of all decisions\n**Next Review**: [Date]\n"

/-- Shallow embedding of `ClaudeProjectSetup._get_decisions_template` in src/claude_setup.py; interpolations self.project_name / datetime.now().strftime become the parameters. -/
def decisions_template (project_name : String) (today : String) : String :=
  decisions_seg0 ++ project_name ++ decisions_seg1 ++ today ++ decisions_seg2

/-- Literal text segment of `_get_tasks_template` in src/claude_setup.py (between interpolation points). -/
def tasks_seg0 : String :=
  "# Task Checklist: "

/-- Literal text segment of `_get_tasks_template` in src/claude_setup.py (between interpolation points). -/
def tasks_seg1 : String :=
  "\n\n## Current Sprint/Iteration\n\n**Sprint Goal**: [What we want to accomplish this iteration]\n**Start Date**: [Date]\n**End Date**: [Date]\n\n### In Progress\n- [ ] **[Task Name]** - @assigned-person\n  - **Status**: In Progress\n  - **Description**: [Brief description]\n  - **Blocked By**: [Any blockers]\n  \n### To Do (Prioritized)\n- [ ] **[High Priority Task]** - Priority: High\n  - **Description**: [What needs to be done]\n  - **Acceptance Criteria**: [How we know it\x27s done]\n  - **Estimated Effort**: [S/M/L/XL]\n  \n- [ ] **[Medium Priority Task]** - Priority: Medium\n  - **Description**: [What needs to be done]\n  - **Dependencies**: [What needs to be done first]\n\n### Blocked\n- [ ] **[Blocked Task]**\n  - **Blocked By**: [What\x27s blocking progress]\n  - **Action Needed**: [What needs to happen to unblock]\n\n### Done ✅\n- [x] **[Completed Task]** - Completed on [Date]\n\n## Backlog\n\n### High Priority (Next Sprint)\n- [ ] [Task for next iteration]\n- [ ] [Another task for next iteration]\n\n### Medium Priority (Future)\n- [ ] [Future enhancement]\n- [ ] [Nice-to-have feature]\n\n### Low Priority (Maybe)\n- [ ] [Optional improvement]\n- [ ] [Far future consideration]\n\n## Technical Debt\n\nTrack technical debt items that need attention:\n- [ ] **[Tech Debt Item]**\n  - **Impact**: [How it affects development]\n  - **Effort to Fix**: [Estimated effort]\n  - **Priority**: [When to address]\n\n## Bugs\n\nTrack and prioritize bug fixes:\n- [ ] **[Bug Description]** - Severity: [Critical/High/Medium/Low]\n  - **Steps to Reproduce**: [How to reproduce]\n  - **Expected**: [What should happen]\n  - **Actual**: [What actually happens]\n  - **Environment**: [Where it occurs]\n\n## Dependencies\n\nTrack external dependencies:\n- [ ] **[Dependency]**\n  - **Depends On**: [External team/system/decision]\n  - **Expected Date**: [When we expect resolution]\n  - **Contact**: [Who to follow up with]\n\n## Retrospective Items\n\nThings to discuss in the next retrospective:\n- **What Went Well**: [Positive items to continue]\n- **What Could Improve**: [Areas for improvement]  \n- **Action Items**: [Specific actions to take]\n\n## Meeting Actions\n\nTrack action items from meetings:\n- [ ] **[Action Item]** - @responsible-person\n  - **From Meeting**: [Meeting name/date]\n  - **Due Date**: [When it\x27s due]\n\n---\n\n**Last Updated**: "

/-- Literal text segment of `_get_tasks_template` in src/claude_setup.py (between interpolation points). -/
def tasks_seg2 : String :=
  "\n**Next Review**: [Next sprint planning date]\n"

/-- Shallow embedding of `ClaudeProjectSetup._get_tasks_template` in src/claude_setup.py; interpolations self.project_name / datetime.now().strftime become the parameters. -/
def tasks_template (project_name : String) (today : String) : String :=
  tasks_seg0 ++ project_name ++ tasks_seg1 ++ today ++ tasks_seg2

/-- Literal text segment of `_get_architecture_template` in src/claude_setup.py (between interpolation points). -/
def architecture_seg0 : String :=
  "# Architecture Design: "

/-- Literal text segment of `_get_architecture_template` in src/claude_setup.py (between interpolation points). -/
def architecture_seg1 : String :=
  "\n\n## System Overview\n\n**Purpose**: [High-level description of what this system does]\n\n**Key Requirements**:\n- [Functional requirement 1]\n- [Functional requirement 2]\n- [Non-functional requirement 1]\n- [Non-functional requirement 2]\n\n## Architecture Principles\n\n1. **Simplicity**: Keep the architecture as simple as possible\n2. **Scalability**: Design for growth and increased load\n3. **Maintainability**: Code should be easy to understand and modify\n4. **Security**: Security considerations built into every layer\n5. **Performance**: Meet performance requirements efficiently\n\n## System Architecture\n\n### High-Level Architecture\n\n\x60\x60\x60\n[Insert architecture diagram description or ASCII art]\n\n┌─────────────┐    ┌─────────────┐    ┌─────────────┐\n│   Client    │    │     API     │    │  Database   │\n│ (Frontend)  │◄──►│  (Backend)  │◄──►│   Server    │\n└─────────────┘    └─────────────┘    └─────────────┘\n\x60\x60\x60\n\n### Component Overview\n\n#### Frontend Layer\n- **Technology**: [Framework/Library]\n- **Responsibilities**: User interface, client-side logic, API communication\n- **Key Patterns**: [Architecture patterns used]\n\n#### Backend Layer  \n- **Technology**: [Language/Framework]\n- **Responsibilities**: Business logic, API endpoints, data validation\n- **Key Patterns**: [Architecture patterns used]\n\n#### Data Layer\n- **Technology**: [Database type]\n- **Responsibilities**: Data persistence, query optimization, backup\n- **Key Patterns**: [Data access patterns]\n\n## Detailed Design\n\n### API Design\n\n**API Style**: REST/GraphQL/RPC\n**Base URL**: [API base URL]\n**Authentication**: [Auth method]\n\n#### Key Endpoints\n- \x60GET /api/[resource]\x60 - [Description]\n- \x60POST /api/[resource]\x60 - [Description]  \n- \x60PUT /api/[resource]/:id\x60 - [Description]\n- \x60DELETE /api/[resource]/:id\x60 - [Description]\n\n### Database Design\n\n#### Core Entities\n- **[Entity 1]**: [Description and key attributes]\n- **[Entity 2]**: [Description and key attributes]\n- **[Entity 3]**: [Description and key attributes]\n\n#### Relationships\n- [Entity 1] → [Entity 2]: [Relationship description]\n- [Entity 2] → [Entity 3]: [Relationship description]\n\n### Security Architecture\n\n#### Authentication\n- **Method**: [JWT/Session/OAuth/etc.]\n- **Flow**: [Authentication flow description]\n- **Token Management**: [How tokens are handled]\n\n#### Authorization  \n- **Model**: [RBAC/ABAC/etc.]\n- **Implementation**: [How permissions are checked]\n\n#### Data Protection\n- **Encryption**: [At rest and in transit]\n- **Input Validation**: [Validation strategy]\n- **Output Sanitization**: [XSS prevention]\n\n## Deployment Architecture\n\n### Environment Strategy\n- **Development**: [Local development setup]\n- **Staging**: [Pre-production environment]\n- **Production**: [Live environment]\n\n### Infrastructure\n- **Hosting**: [Cloud provider/platform]\n- **Containerization**: [Docker/Kubernetes strategy]\n- **Database**: [Database hosting and scaling]\n- **CDN**: [Content delivery network]\n\n### CI/CD Pipeline\n1. **Code Commit** → Automated tests\n2. **Tests Pass** → Build artifacts  \n3. **Build Success** → Deploy to staging\n4. **Staging Validation** → Deploy to production\n5. **Production Deploy** → Health checks\n\n## Performance Considerations\n\n### Scalability\n- **Horizontal Scaling**: [How to scale out]\n- **Vertical Scaling**: [How to scale up]\n- **Database Scaling**: [Read replicas, sharding, etc.]\n\n### Caching Strategy\n- **Application Cache**: [In-memory caching]\n- **Database Cache**: [Query result caching]\n- **CDN Cache**: [Static asset caching]\n\n### Monitoring\n- **Application Metrics**: [What we measure]\n- **Infrastructure Metrics**: [System monitoring]\n- **Business Metrics**: [KPI tracking]\n\n## Error Handling\n\n### Error Response Format\n\x60\x60\x60json\n\x7b\n  \"error\": \x7b\n    \"code\": \"ERROR_CODE\",\n    \"message\": \"User-friendly message\",\n    \"details\": \"Technical details for debugging\"\n  \x7d\n\x7d\n\x60\x60\x60\n\n### Logging Strategy\n- **Log Levels**: DEBUG, INFO, WARN, ERROR\n- **Log Format**: Structured JSON logging\n- **Log Aggregation**: [Centralized logging system]\n\n## Testing Strategy\n\n### Unit Testing\n- **Coverage Target**: 80%+ line coverage\n- **Framework**: [Testing framework]\n- **Mock Strategy**: [How external dependencies are mocked]\n\n### Integration Testing\n- **API Testing**: [API test approach]\n- **Database Testing**: [Data layer testing]\n- **End-to-End Testing**: [E2E test strategy]\n\n## Future Considerations\n\n### Planned Enhancements\n- [Feature enhancement 1]\n- [Feature enhancement 2]\n- [Performance improvement 1]\n\n### Technical Debt\n- [Known technical debt item 1]\n- [Known technical debt item 2]\n\n### Scaling Concerns\n- [When we\x27ll need to address scaling]\n- [Potential bottlenecks to monitor]\n\n---\n\n**Document Version**: 1.0\n**Last Updated**: "

/-- Literal text segment of `_get_architecture_template` in src/claude_setup.py (between interpolation points). -/
def architecture_seg2 : String :=
  "\n**Next Review**: [Review date]\n**Reviewers**: [Names of reviewers needed]\n"

/-- Shallow embedding of `ClaudeProjectSetup._get_architecture_template` in src/claude_setup.py; interpolations self.project_name / datetime.now().strftime become the parameters. -/
def architecture_template (project_name : String) (today : String) : String :=
  architecture_seg0 ++ project_name ++ architecture_seg1 ++ today ++ architecture_seg2

/-- Literal text segment of `_get_claude_md_template` in src/claude_setup.py (between interpolation points). -/
def claude_md_seg0 : String :=
  "# "

/-- Literal text segment of `_get_claude_md_template` in src/claude_setup.py (between interpolation points). -/
def claude_md_seg1 : String :=
  "\n\n## Project Context\n\n**Purpose**: [Brief description of what this project does]\n**Status**: [In Development/Testing/Production]\n**Team**: [Team members and roles]\n\n## Quick Start\n\n1. **Read First**: \x60@docs/architecture-design.md\x60 for technical overview\n2. **Development Setup**: [Key setup steps]  \n3. **Key Commands**: [Most common development commands]\n\n## Architecture Summary\n\n- **Frontend**: [Technology and key patterns]\n- **Backend**: [Technology and key patterns]\n- **Database**: [Database and key design decisions]\n- **Deployment**: [How this is deployed]\n\n## Current Focus\n\n**This Sprint**: [Current iteration goals]\n**Next Up**: [What\x27s coming next]\n**Blockers**: [Any current blockers]\n\n## Key Files and Folders\n\n- \x60docs/\x60 - All project documentation\n- \x60src/\x60 - Source code\n- \x60tests/\x60 - Test files\n- \x60.claude/agents/\x60 - Specialized Claude agents\n\n## Workflow Reminders\n\n### Use the Agents\n- **Planning**: \x60@.claude/agents/mvp-planner.md\x60\n- **Architecture**: \x60@.claude/agents/architect.md\x60  \n- **Review**: \x60@.claude/agents/code-reviewer.md\x60\n- **Testing**: \x60@.claude/agents/test-runner.md\x60\n- **Debug**: \x60@.claude/agents/debugger.md\x60\n\n### Best Practices\n- Follow **Explore-Plan-Code-Commit** workflow\n- Use \x60/context\x60 to monitor token usage\n- Use \x60/compact\x60 at 70% capacity\n- Use \x60/clear\x60 between major feature work\n- Reference files with \x60@filepath\x60 when possible\n\n## Recent Decisions\n\n[Link to key recent architecture decisions]\n\n## Common Commands\n\n\x60\x60\x60bash\n# Development\n[key development commands]\n\n# Testing  \n[key testing commands]\n\n# Deployment\n[key deployment commands]\n\x60\x60\x60\n\n---\n*Keep this file under 200 lines. For detailed info, reference docs/ files.*\n"

/-- Shallow embedding of `ClaudeProjectSetup._get_claude_md_template` in src/claude_setup.py; interpolations self.project_name / datetime.now().strftime become the parameters. -/
def claude_md_template (project_name : String) : String :=
  claude_md_seg0 ++ project_name ++ claude_md_seg1

/-- Literal text segment of `_get_playbook_template` in src/claude_setup.py (between interpolation points). -/
def playbook_seg0 : String :=
  "# "

/-- Literal text segment of `_get_playbook_template` in src/claude_setup.py (between interpolation points). -/
def playbook_seg1 : String :=
  " Playbook\n\n## How This Project Works\n\nThis playbook explains how to effectively work on "

/-- Literal text segment of `_get_playbook_template` in src/claude_setup.py (between interpolation points). -/
def playbook_seg2 : String :=
  " using our optimized Claude Code workflow.\n\n## Getting Started\n\n### Prerequisites\n- [List required tools and versions]\n- [Environment setup requirements]\n- [Access requirements]\n\n### Initial Setup\n\x60\x60\x60bash\n# Clone and setup\ngit clone [repository-url]\ncd "

/-- Literal text segment of `_get_playbook_template` in src/claude_setup.py (between interpolation points). -/
def playbook_seg3 : String :=
  "\n[setup commands]\n\x60\x60\x60\n\n### Claude Code Integration\n\x60\x60\x60bash\n# Start Claude Code session\nclaude --dangerously-skip-permissions\n\n# First interaction\nclaude \"Please read @docs/architecture-design.md and @CLAUDE.md to understand this project\"\n\x60\x60\x60\n\n## Development Workflow\n\n### 1. Explore Phase\nBefore starting any work:\n\x60\x60\x60bash\nclaude \"Please read @docs/03-tasks.md and show me current sprint tasks\"\nclaude \"Read relevant files for [feature] and understand the current implementation\"\n\x60\x60\x60\n\n### 2. Plan Phase  \nFor any new feature:\n\x60\x60\x60bash\nclaude \"Act as @.claude/agents/mvp-planner.md and help me plan [feature]\"\nclaude \"Act as @.claude/agents/architect.md and review this plan for [feature]\"\n\x60\x60\x60\n\n### 3. Code Phase\nDuring implementation:\n\x60\x60\x60bash\nclaude \"Implement [feature] following our architecture in @docs/architecture-design.md\"\nclaude \"Act as @.claude/agents/code-reviewer.md and review the implementation\"\n\x60\x60\x60\n\n### 4. Commit Phase\nAfter implementation:\n\x60\x60\x60bash\nclaude \"Act as @.claude/agents/test-runner.md and create tests for [feature]\"\nclaude \"Help me create a proper commit message and update relevant documentation\"\n\x60\x60\x60\n\n## Specialized Agents\n\n### MVP Planner (\x60@.claude/agents/mvp-planner.md\x60)\n**Use When**: Planning new features, defining scope, prioritizing work\n**Prompt**: \"Act as the MVP Planner and help me [specific planning task]\"\n\n### Architect (\x60@.claude/agents/architect.md\x60)  \n**Use When**: Making technical decisions, reviewing system design\n**Prompt**: \"Act as the Architect and review [architectural decision/code]\"\n\n### Code Reviewer (\x60@.claude/agents/code-reviewer.md\x60)\n**Use When**: Before committing code, during code reviews\n**Prompt**: \"Act as the Code Reviewer and review [specific files/changes]\"\n\n### Test Runner (\x60@.claude/agents/test-runner.md\x60)\n**Use When**: Creating tests, running test suites, debugging test failures\n**Prompt**: \"Act as the Test Runner and help me [testing task]\"\n\n### Debugger (\x60@.claude/agents/debugger.md\x60)\n**Use When**: Investigating bugs, performance issues, system problems\n**Prompt**: \"Act as the Debugger and help me diagnose [specific problem]\"\n\n## Context Management\n\n### Monitor Usage\n\x60\x60\x60bash\n# Check current token usage\n/context\n\n# Compact conversation when needed (at ~70%)  \n/compact\n\n# Clear context for new major feature\n/clear\n\x60\x60\x60\n\n### File References\n\x60\x60\x60bash\n# Reference without loading full content\nclaude \"Based on @docs/architecture-design.md, implement [feature]\"\n\n# Load and analyze specific files\nclaude \"Read and analyze src/components/UserAuth.js\"\n\x60\x60\x60\n\n## Common Scenarios\n\n### Starting a New Feature\n1. \x60claude \"/clear\"\x60\n2. \x60claude \"Read @CLAUDE.md and @docs/architecture-design.md\"\x60\n3. \x60claude \"Act as @.claude/agents/mvp-planner.md and help me plan [feature]\"\x60\n4. Follow Explore-Plan-Code-Commit workflow\n\n### Debugging an Issue\n1. \x60claude \"Act as @.claude/agents/debugger.md\"\x60\n2. \x60claude \"Help me diagnose [specific issue with details]\"\x60\n3. Follow the systematic debugging approach\n\n### Code Review  \n1. \x60claude \"Act as @.claude/agents/code-reviewer.md\"\x60\n2. \x60claude \"Review the following changes: [describe changes]\"\x60\n3. Address feedback and re-review if needed\n\n### Performance Optimization\n1. \x60claude \"Act as @.claude/agents/architect.md\"\x60\n2. \x60claude \"Review performance bottlenecks in [specific area]\"\x60\n3. \x60claude \"Act as @.claude/agents/test-runner.md and create performance tests\"\x60\n\n## Quality Gates\n\n### Before Committing\n- [ ] Code review by Code Reviewer agent\n- [ ] Tests created and passing (Test Runner agent)  \n- [ ] Architecture review if needed (Architect agent)\n- [ ] Documentation updated\n\n### Before Releasing\n- [ ] Full test suite passes\n- [ ] Performance benchmarks met\n- [ ] Security review complete\n- [ ] Documentation up to date\n\n## Troubleshooting\n\n### Claude Code Issues\n- **High token usage**: Use \x60/compact\x60 or \x60/clear\x60\n- **Context confusion**: Start fresh with \x60/clear\x60 and reload key docs\n- **Permission errors**: Check \x60.claude/settings.json\x60\n\n### Development Issues\n- **Build failures**: Check environment setup and dependencies\n- **Test failures**: Use Test Runner agent for systematic debugging\n- **Performance issues**: Use Architect and Debugger agents\n\n## Team Collaboration\n\n### Sharing Context\nWhen asking teammates for help:\n1. Share relevant files from \x60docs/\x60 folder\n2. Reference the specific agent conversation\n3. Include current task from \x60docs/03-tasks.md\x60\n\n### Onboarding New Team Members\n1. Have them read this playbook\n2. Walk through the agent-based workflow\n3. Pair on first few features using the workflow\n\n## Continuous Improvement\n\n### Weekly Review\n- Review agent effectiveness\n- Update documentation based on learnings\n- Identify workflow improvements\n\n### Monthly Architecture Review\n- Review \x60docs/02-decisions.md\x60\n- Update \x60docs/architecture-design.md\x60 as needed\n- Assess technical debt in \x60docs/03-tasks.md\x60\n\n---\n\n**Remember**: The agents are your specialized consultants. Use them actively and trust their expertise in their domains.\n"

/-- Shallow embedding of `ClaudeProjectSetup._get_playbook_template` in src/claude_setup.py; interpolations self.project_name / datetime.now().strftime become the parameters. -/
def playbook_template (project_name : String) : String :=
  playbook_seg0 ++ project_name ++ playbook_seg1 ++ project_name ++ playbook_seg2 ++ project_name ++ playbook_seg3

/-- Literal text segment of `create_readme / readme_content` in src/claude_setup.py (between interpolation points). -/
def readme_seg0 : String :=
  "# "

/-- Literal text segment of `create_readme / readme_content` in src/claude_setup.py (between interpolation points). -/
def readme_seg1 : String :=
  "\n\n## Claude Code Workflow\n\nThis project is set up with an optimized Claude Code workflow based on research-backed best practices.\n\n### Quick Start\n\n1. **Read the documentation first**:\n   \x60\x60\x60bash\n   claude \"Please read @docs/architecture-design.md and understand the project structure\"\n   \x60\x60\x60\n\n2. **Use the specialized agents**:\n   - \x60@.claude/agents/mvp-planner.md\x60 - For scope and planning\n   - \x60@.claude/agents/architect.md\x60 - For architecture decisions\n   - \x60@.claude/agents/code-reviewer.md\x60 - For code reviews\n   - \x60@.claude/agents/test-runner.md\x60 - For testing workflows\n   - \x60@.claude/agents/debugger.md\x60 - For debugging issues\n\n3. **Follow the Explore-Plan-Code-Commit workflow**:\n   - **Explore**: Have Claude read relevant files\n   - **Plan**: Ask Claude to create a comprehensive plan\n   - **Code**: Implement following the architecture\n   - **Commit**: Create proper commits and update docs\n\n### Key Commands\n\n- \x60/context\x60 - Check token usage\n- \x60/compact\x60 - Compress conversation history at 70% capacity\n- \x60/clear\x60 - Start fresh context for new features\n- \x60@filepath\x60 - Reference files without loading full content\n\n### Project Structure\n\n- \x60docs/\x60 - Project documentation and specifications\n- \x60.claude/\x60 - Claude Code configuration and agents\n- \x60CLAUDE.md\x60 - Main project context (keep under 200 lines)\n- \x60PLAYBOOK.md\x60 - How this project works\n\n## Development\n\n[Add your project-specific development instructions here]\n\n## Architecture\n\nSee \x60docs/architecture-design.md\x60 for detailed architecture documentation.\n"

/-- Content string built by `create_readme / readme_content` in src/claude_setup.py. -/
def readme_template (project_name : String) : String :=
  readme_seg0 ++ project_name ++ readme_seg1

/-- Literal text segment of `create_gitignore / gitignore_content` in src/claude_setup.py (between interpolation points). -/
def gitignore_seg0 : String :=
  "# Environment variables\n.env\n.env.*\n!.env.example\n\n# Secrets and credentials\nsecrets/\nprivate/\nconfig/credentials.json\n\n# IDE and editor files\n.vscode/\n.idea/\n*.swp\n*.swo\n*~\n\n# OS generated files\n.DS_Store\n.DS_Store?\n._*\n.Spotlight-V100\n.Trashes\nehthumbs.db\nThumbs.db\n\n# Logs\nlogs/\n*.log\n\n# Dependencies (language-specific - uncomment as needed)\n# node_modules/\n# __pycache__/\n# *.pyc\n# vendor/\n# target/\n\n# Build outputs\ndist/\nbuild/\n*.egg-info/\n\n# Claude Code specific (optional - keep these for team collaboration)\n# .claude/settings.json\n"

/-- Content string built by `create_gitignore / gitignore_content` in src/claude_setup.py. -/
def gitignore_template : String :=
  gitignore_seg0

/-- Literal text segment of `create_claude_settings / json.dump(settings, f, indent=2)` in src/claude_setup.py (between interpolation points). -/
def settings_json_seg0 : String :=
  "\x7b\n  \"permissions\": \x7b\n    \"deny\": [\n      \"Read(./.env)\",\n      \"Read(./.env.*)\",\n      \"Read(./secrets/**)\",\n      \"Read(./config/credentials.json)\",\n      \"Read(./private/**)\",\n      \"Write(./.env)\",\n      \"Write(./.env.*)\",\n      \"Write(./secrets/**)\"\n    ],\n    \"allow\": [\n      \"Read(./docs/**)\",\n      \"Read(./src/**)\",\n      \"Read(./tests/**)\",\n      \"Write(./src/**)\",\n      \"Write(./tests/**)\",\n      \"Write(./docs/**)\"\n    ]\n  \x7d,\n  \"context_limits\": \x7b\n    \"max_tokens\": 150000,\n    \"compact_at_percent\": 70,\n    \"warning_at_percent\": 85\n  \x7d,\n  \"project_settings\": \x7b\n    \"name\": \""

/-- Literal text segment of `create_claude_settings / json.dump(settings, f, indent=2)` in src/claude_setup.py (between interpolation points). -/
def settings_json_seg1 : String :=
  "\",\n    \"created\": \""

/-- Literal text segment of `create_claude_settings / json.dump(settings, f, indent=2)` in src/claude_setup.py (between interpolation points). -/
def settings_json_seg2 : String :=
  "\",\n    \"version\": \"1.0.0\"\n  \x7d\n\x7d"

/-- Rendered text of the settings dict built by `create_claude_settings` and serialized with json.dump(settings, f, indent=2); `project_name` fills project_settings.name and `today` fills project_settings.created (datetime.now().isoformat()). -/
def settings_json_template (project_name : String) (today : String) : String :=
  settings_json_seg0 ++ project_name ++ settings_json_seg1 ++ today ++ settings_json_seg2
/-- The `permissions` sub-dict of the `settings` dict in
`create_claude_settings` (src/claude_setup.py lines 39-58). -/
structure PermissionsConfig where
  deny : List String
  allow : List String
deriving DecidableEq

/-- The `settings` dict literal of `create_claude_settings`
(src/claude_setup.py lines 38-69), as a record.  `created` is the value of
`datetime.now().isoformat()` at the time of the call. -/
structure ClaudeSettings where
  permissions : PermissionsConfig
  max_tokens : Nat
  compact_at_percent : Nat
  warning_at_percent : Nat
  name : String
  created : String
  version : String
deriving DecidableEq

/-- The `settings` dict built by `create_claude_settings`, transcribed field
by field from src/claude_setup.py lines 38-69. -/
def claude_settings (project_name : String) (created : String) : ClaudeSettings :=
  { permissions :=
      { deny :=
          [ "Read(./.env)",
            "Read(./.env.*)",
            "Read(./secrets/**)",
            "Read(./config/credentials.json)",
            "Read(./private/**)",
            "Write(./.env)",
            "Write(./.env.*)",
            "Write(./secrets/**)" ]
        allow :=
          [ "Read(./docs/**)",
            "Read(./src/**)",
            "Read(./tests/**)",
            "Write(./src/**)",
            "Write(./tests/**)",
            "Write(./docs/**)" ] }
    max_tokens := 150000
    compact_at_percent := 70
    warning_at_percent := 85
    name := project_name
    created := created
    version := "1.0.0" }

/-- Step 1, `create_directory_structure`: mkdir(parents=True, exist_ok=True)
on project_path, claude_dir, agents_dir, docs_dir, in that order. -/
def create_directory_structure (s : ClaudeProjectSetup) : List FsOp :=
  [ .mkdir s.project_path true true,
    .mkdir (claude_dir s) true true,
    .mkdir (agents_dir s) true true,
    .mkdir (docs_dir s) true true ]

/-- Step 2, `create_claude_settings`: one truncating write of the rendered
settings JSON to `claude_dir / "settings.json"`; `now` is the
`datetime.now()` reading taken inside this call. -/
def create_claude_settings (s : ClaudeProjectSetup) (now : PyDateTime) : List FsOp :=
  [ .write (pathJoin (claude_dir s) "settings.json")
      (settings_json_template s.project_name now.isoformat) ]

/-- Step 3, `create_specialized_agents`: writes the five agent documents into
`agents_dir`, in the insertion order of the `agents` dict. -/
def create_specialized_agents (s : ClaudeProjectSetup) : List FsOp :=
  [ .write (pathJoin (agents_dir s) "mvp-planner.md") (mvp_planner_template s.project_name),
    .write (pathJoin (agents_dir s) "architect.md") (architect_template s.project_name),
    .write (pathJoin (agents_dir s) "code-reviewer.md") (code_reviewer_template s.project_name),
    .write (pathJoin (agents_dir s) "test-runner.md") (test_runner_template s.project_name),
    .write (pathJoin (agents_dir s) "debugger.md") (debugger_template s.project_name) ]

/-- Step 4, `create_documentation_structure`: writes the four docs files into
`docs_dir` in the insertion order of the `docs` dict; the four templates each
call `datetime.now().strftime('%Y-%m-%d')`, so they receive four successive
clock readings `t1..t4`. -/
def create_documentation_structure (s : ClaudeProjectSetup) (t1 t2 t3 t4 : PyDateTime) : List FsOp :=
  [ .write (pathJoin (docs_dir s) "01-scope.md") (scope_template s.project_name t1.ymd),
    .write (pathJoin (docs_dir s) "02-decisions.md") (decisions_template s.project_name t2.ymd),
    .write (pathJoin (docs_dir s) "03-tasks.md") (tasks_template s.project_name t3.ymd),
    .write (pathJoin (docs_dir s) "architecture-design.md") (architecture_template s.project_name t4.ymd) ]

/-- Step 5, `create_main_context_files`: writes CLAUDE.md then PLAYBOOK.md at
the project root. -/
def create_main_context_files (s : ClaudeProjectSetup) : List FsOp :=
  [ .write (pathJoin s.project_path "CLAUDE.md") (claude_md_template s.project_name),
    .write (pathJoin s.project_path "PLAYBOOK.md") (playbook_template s.project_name) ]

/-- Step 6, `create_gitignore`: writes the fixed .gitignore content. -/
def create_gitignore (s : ClaudeProjectSetup) : List FsOp :=
  [ .write (pathJoin s.project_path ".gitignore") gitignore_template ]

/-- Step 7, `create_readme`: writes README.md at the project root. -/
def create_readme (s : ClaudeProjectSetup) : List FsOp :=
  [ .write (pathJoin s.project_path "README.md") (readme_template s.project_name) ]

/-- The full operation sequence of `setup_project`'s try block: the seven
steps in source order.  `datetime.now()` is called five times during the run
(settings, then the four docs templates), so the steps receive clock
readings 0..4 in that order. -/
def setup_ops (s : ClaudeProjectSetup) (clock : Clock) : List FsOp :=
  create_directory_structure s
    ++ create_claude_settings s (clock 0)
    ++ create_specialized_agents s
    ++ create_documentation_structure s (clock 1) (clock 2) (clock 3) (clock 4)
    ++ create_main_context_files s
    ++ create_gitignore s
    ++ create_readme s

/-- `setup_project`: run the seven steps; the first raising filesystem
operation aborts the rest, the exception is reported and the process exits
with status 1 (`sys.exit(1)` in the except block); on success the process
exits with status 0.  No rollback of already performed operations happens. -/
def setup_project (s : ClaudeProjectSetup) (clock : Clock) (ok : Nat → Bool) : RunResult :=
  let r := execOps ok 0 (setup_ops s clock)
  { performed := r.1
    exitCode := match r.2 with | none => 0 | some _ => 1
    error := r.2 }

/-- `main`: validate the project name
(`args.project_name.replace('-', '').replace('_', '').isalnum()`); on failure
print the validation error and `sys.exit(1)` before any filesystem access;
otherwise build the `ClaudeProjectSetup` and run `setup_project`. -/
def main_run (project_name : String) (path : Option String) (cwd : String)
    (clock : Clock) (ok : Nat → Bool) : RunResult :=
  if validate_project_name project_name then
    setup_project (setup_init project_name path cwd) clock ok
  else
    { performed := [], exitCode := 1, error := none }

/-- The fourteen file paths of the fixed catalog, relative to the project
root (write order of the run). -/
def catalog_suffixes : List String :=
  [ "/.claude/settings.json",
    "/.claude/agents/mvp-planner.md",
    "/.claude/agents/architect.md",
    "/.claude/agents/code-reviewer.md",
    "/.claude/agents/test-runner.md",
    "/.claude/agents/debugger.md",
    "/docs/01-scope.md",
    "/docs/02-decisions.md",
    "/docs/03-tasks.md",
    "/docs/architecture-design.md",
    "/CLAUDE.md",
    "/PLAYBOOK.md",
    "/.gitignore",
    "/README.md" ]

/-- First line of a string: the characters before the first newline. -/
def firstLine (s : String) : String :=
  String.mk (s.data.takeWhile fun c => c != '\n')

/-- `s` contains `pat` as a contiguous substring. -/
def containsSubstr (s pat : String) : Prop :=
  ∃ a b, s = a ++ pat ++ b

/-- A clock that ticks over midnight between the first reading (index 0,
taken by `create_claude_settings`) and the later readings (taken by the docs
templates): a run that starts just before midnight. -/
def midnight_clock : Clock := fun i =>
  if i = 0 then { isoformat := "2024-01-01T23:59:59", ymd := "2024-01-01" }
  else { isoformat := "2024-01-02T00:00:01", ymd := "2024-01-02" }

/-- A frozen clock stuck at the startup reading of `midnight_clock`. -/
def frozen_clock : Clock := fun _ =>
  { isoformat := "2024-01-01T23:59:59", ymd := "2024-01-01" }

/-- A fixed test clock for concrete runs. -/
def test_clock : Clock := fun _ =>
  { isoformat := "2024-06-01T12:00:00", ymd := "2024-06-01" }

/-- Failure oracle under which every filesystem operation succeeds. -/
def all_ok : Nat → Bool := fun _ => true

/-- Failure oracle whose operation number 2 (the third operation) raises. -/
def fail_at_two : Nat → Bool := fun i => i != 2

/-- A clock that agrees with `test_clock` on the five readings a run makes
and differs afterwards. -/
def padded_clock : Clock := fun i =>
  if i < 5 then test_clock i
  else { isoformat := "1999-01-01T00:00:00", ymd := "1999-01-01" }
/-- Characters with equal code points are equal. -/
theorem char_toNat_inj {a b : Char} (h : a.toNat = b.toNat) : a = b :=
  Char.ext (UInt32.toNat.inj h)

/-- String append cancels on the left. -/
theorem string_append_left_cancel {a b c : String} (h : a ++ b = a ++ c) : b = c := by
  apply String.ext
  have h2 := congrArg String.data h
  simp only [String.data_append] at h2
  exact List.append_cancel_left h2

/-- Appending a fixed prefix is injective on strings. -/
theorem string_append_left_injective (a : String) : Function.Injective (fun t => a ++ t) :=
  fun _ _ h => string_append_left_cancel h

/-- The validator, rewritten on the character list of the name: strip all
hyphens, then all underscores, then test Python `isalnum`. -/
theorem validate_eq (s : String) :
    validate_project_name s =
      (!(((s.data.filter fun x => x != '-').filter fun x => x != '_').isEmpty) &&
        ((s.data.filter fun x => x != '-').filter fun x => x != '_').all pyIsAlnumChar) :=
  rfl

/-- On the ASCII range, Python `isalnum` coincides with ASCII alphanumeric. -/
theorem pyIsAlnumChar_ascii {c : Char} (h : c.toNat < 128) :
    pyIsAlnumChar c = asciiAlnumChar c := by
  rw [Bool.eq_iff_iff]
  simp only [pyIsAlnumChar, asciiAlnumChar, Bool.or_eq_true, decide_eq_true_eq]
  omega

/-- ASCII alphanumeric characters are in the spec's allowed class. -/
theorem asciiAlnumChar_allowed {c : Char} (h : asciiAlnumChar c = true) :
    specAllowedChar c = true := by
  simp only [asciiAlnumChar, Bool.or_eq_true, decide_eq_true_eq] at h
  simp only [specAllowedChar, Bool.or_eq_true, decide_eq_true_eq]
  omega

/-- A character of the spec's allowed class is an ASCII alphanumeric, a
hyphen, or an underscore. -/
theorem specAllowedChar_cases {c : Char} (h : specAllowedChar c = true) :
    asciiAlnumChar c = true ∨ c = '-' ∨ c = '_' := by
  simp only [specAllowedChar, Bool.or_eq_true, decide_eq_true_eq] at h
  simp only [asciiAlnumChar, Bool.or_eq_true, decide_eq_true_eq]
  rcases h with (((h | h) | h) | h) | h
  · exact Or.inl (by omega)
  · exact Or.inl (by omega)
  · exact Or.inl (by omega)
  · exact Or.inr (Or.inl (char_toNat_inj h))
  · exact Or.inr (Or.inr (char_toNat_inj h))

/-- ASCII alphanumeric characters are neither hyphen nor underscore. -/
theorem asciiAlnumChar_ne_strip {c : Char} (h : asciiAlnumChar c = true) :
    c ≠ '-' ∧ c ≠ '_' := by
  simp only [asciiAlnumChar, Bool.or_eq_true, decide_eq_true_eq] at h
  refine ⟨fun he => ?_, fun he => ?_⟩
  · have h2 := congrArg Char.toNat he
    rw [show ('-' : Char).toNat = 45 from rfl] at h2
    omega
  · have h2 := congrArg Char.toNat he
    rw [show ('_' : Char).toNat = 95 from rfl] at h2
    omega

/-- The write operations of a run starting with a write. -/
theorem writesOf_cons_write (q c : String) (rest : List FsOp) :
    writesOf (.write q c :: rest) = (q, c) :: writesOf rest := by
  simp [writesOf]

/-- The write operations of a run starting with a mkdir. -/
theorem writesOf_cons_mkdir (q : String) (par ex : Bool) (rest : List FsOp) :
    writesOf (.mkdir q par ex :: rest) = writesOf rest := by
  simp [writesOf]

/-- The written paths of a run starting with a write. -/
theorem writePaths_cons_write (q c : String) (rest : List FsOp) :
    writePaths (.write q c :: rest) = q :: writePaths rest := by
  simp [writePaths, writesOf_cons_write]

/-- The written paths of a run starting with a mkdir. -/
theorem writePaths_cons_mkdir (q : String) (par ex : Bool) (rest : List FsOp) :
    writePaths (.mkdir q par ex :: rest) = writePaths rest := by
  simp [writePaths, writesOf_cons_mkdir]

/-- Membership in the stripped character list of the validator. -/
theorem mem_strip_iff (s : String) (c : Char) :
    c ∈ (s.data.filter fun x => x != '-').filter (fun x => x != '_') ↔
      c ∈ s.data ∧ c ≠ '-' ∧ c ≠ '_' := by
  simp only [List.mem_filter, bne_iff_ne]
  tauto

/-- Every character of a name accepted by the validator is Python
alphanumeric, a hyphen, or an underscore. -/
theorem valid_name_chars {n : String} (h : validate_project_name n = true) :
    ∀ c ∈ n.data, pyIsAlnumChar c = true ∨ c = '-' ∨ c = '_' := by
  rw [validate_eq, Bool.and_eq_true, List.all_eq_true] at h
  intro c hc
  by_cases h45 : c = '-'
  · exact Or.inr (Or.inl h45)
  by_cases h95 : c = '_'
  · exact Or.inr (Or.inr h95)
  · exact Or.inl (h.2 c ((mem_strip_iff n c).mpr ⟨hc, h45, h95⟩))

/-- Executing under an all-successful oracle performs every operation. -/
theorem execOps_all_ok (i : Nat) (ops : List FsOp) :
    execOps all_ok i ops = (ops, none) := by
  induction ops generalizing i with
  | nil => rfl
  | cons op rest ih => simp [execOps, all_ok, ih]

/-- If the first failing operation index is `k`, execution performs exactly
the `k`-operation prefix and raises at operation `k` (if there is one). -/
theorem execOps_first_fail (ok : Nat → Bool) (ops : List FsOp) (base k : Nat)
    (hlt : ∀ j, j < k → ok (base + j) = true) (hk : ok (base + k) = false) :
    execOps ok base ops = (ops.take k, ops[k]?) := by
  induction ops generalizing base k with
  | nil => simp [execOps]
  | cons op rest ih =>
    cases k with
    | zero =>
      have h0 : ok base = false := by simpa using hk
      simp [execOps, h0]
    | succ k2 =>
      have h0 : ok base = true := by simpa using hlt 0 (Nat.succ_pos k2)
      have hlt2 : ∀ j, j < k2 → ok (base + 1 + j) = true := by
        intro j hj
        have := hlt (j + 1) (by omega)
        rwa [show base + (j + 1) = base + 1 + j by omega] at this
      have hk2 : ok (base + 1 + k2) = false := by
        rwa [show base + 1 + k2 = base + (k2 + 1) by omega]
      simp [execOps, h0, ih (base + 1) k2 hlt2 hk2]

/-- A run never deletes a directory: directories present before a sequence of
operations are still present after it. -/
theorem dirs_mono (ops : List FsOp) (fs : Fs) (q : String) (h : q ∈ fs.dirs) :
    q ∈ (applyOps fs ops).dirs := by
  induction ops generalizing fs with
  | nil => exact h
  | cons op rest ih =>
    apply ih
    cases op with
    | mkdir p par ex => exact List.mem_cons_of_mem p h
    | write p c => exact h

/-- Every directory created by the performed operations is present in the
resulting filesystem. -/
theorem mkdir_in_dirs (ops : List FsOp) (fs : Fs) (p : String) (par ex : Bool)
    (h : FsOp.mkdir p par ex ∈ ops) : p ∈ (applyOps fs ops).dirs := by
  induction ops generalizing fs with
  | nil => simp at h
  | cons op rest ih =>
    rcases List.mem_cons.mp h with he | hm
    · subst he
      exact dirs_mono rest _ p (List.mem_cons_self _ _)
    · exact ih _ hm

/-- Reading a path that no operation writes returns what was there before. -/
theorem readFile_applyOps_not_written (ops : List FsOp) (fs : Fs) (p : String)
    (h : p ∉ writePaths ops) : readFile (applyOps fs ops) p = readFile fs p := by
  induction ops generalizing fs with
  | nil => rfl
  | cons op rest ih =>
    cases op with
    | mkdir q par ex =>
      have h2 : p ∉ writePaths rest := by
        rwa [writePaths_cons_mkdir] at h
      exact ih (applyOp fs (.mkdir q par ex)) h2
    | write q c =>
      rw [writePaths_cons_write, List.mem_cons] at h
      push_neg at h
      obtain ⟨hq, h2⟩ := h
      calc readFile (applyOps (applyOp fs (.write q c)) rest) p
          = readFile (applyOp fs (.write q c)) p := ih _ h2
        _ = readFile fs p := by
            simp only [readFile, applyOp]
            rw [List.find?_cons_of_neg]
            intro hbeq
            exact hq (beq_iff_eq.mp hbeq).symm

/-- Reading a path written exactly once by the operations returns the written
content, whatever the filesystem held before: writes truncate and replace. -/
theorem readFile_applyOps_written (ops : List FsOp) (fs : Fs) (p : String) (c : String)
    (hnd : (writePaths ops).Nodup) (hm : (p, c) ∈ writesOf ops) :
    readFile (applyOps fs ops) p = some c := by
  induction ops generalizing fs with
  | nil => simp [writesOf] at hm
  | cons op rest ih =>
    cases op with
    | mkdir q par ex =>
      have hnd2 : (writePaths rest).Nodup := by rwa [writePaths_cons_mkdir] at hnd
      have hm2 : (p, c) ∈ writesOf rest := by rwa [writesOf_cons_mkdir] at hm
      exact ih _ hnd2 hm2
    | write q d =>
      rw [writePaths_cons_write, List.nodup_cons] at hnd
      obtain ⟨hq, hnd2⟩ := hnd
      rw [writesOf_cons_write, List.mem_cons, Prod.mk.injEq] at hm
      rcases hm with ⟨hp, hc⟩ | hmem
      · subst hp
        subst hc
        rw [show applyOps fs (FsOp.write p c :: rest) = applyOps (applyOp fs (.write p c)) rest
              from rfl]
        rw [readFile_applyOps_not_written rest _ p hq]
        simp [readFile, applyOp]
      · exact ih _ hnd2 hmem

/-- All the writes of one run, associated to their contents: the fourteen
catalog files, rooted at the project path, in write order. -/
theorem writesOf_setup_ops (s : ClaudeProjectSetup) (clock : Clock) :
    writesOf (setup_ops s clock) =
      [ (s.project_path ++ "/.claude/settings.json",
          settings_json_template s.project_name (clock 0).isoformat),
        (s.project_path ++ "/.claude/agents/mvp-planner.md", mvp_planner_template s.project_name),
        (s.project_path ++ "/.claude/agents/architect.md", architect_template s.project_name),
        (s.project_path ++ "/.claude/agents/code-reviewer.md", code_reviewer_template s.project_name),
        (s.project_path ++ "/.claude/agents/test-runner.md", test_runner_template s.project_name),
        (s.project_path ++ "/.claude/agents/debugger.md", debugger_template s.project_name),
        (s.project_path ++ "/docs/01-scope.md", scope_template s.project_name (clock 1).ymd),
        (s.project_path ++ "/docs/02-decisions.md", decisions_template s.project_name (clock 2).ymd),
        (s.project_path ++ "/docs/03-tasks.md", tasks_template s.project_name (clock 3).ymd),
        (s.project_path ++ "/docs/architecture-design.md",
          architecture_template s.project_name (clock 4).ymd),
        (s.project_path ++ "/CLAUDE.md", claude_md_template s.project_name),
        (s.project_path ++ "/PLAYBOOK.md", playbook_template s.project_name),
        (s.project_path ++ "/.gitignore", gitignore_template),
        (s.project_path ++ "/README.md", readme_template s.project_name) ] := by
  simp only [setup_ops, create_directory_structure, create_claude_settings,
    create_specialized_agents, create_documentation_structure, create_main_context_files,
    create_gitignore, create_readme, writesOf, pathJoin, claude_dir, agents_dir, docs_dir,
    List.cons_append, List.nil_append, List.filterMap_cons, List.filterMap_nil,
    String.append_assoc]
  rfl

/-- The paths written by one run: the fourteen catalog suffixes rooted at the
project path, in write order. -/
theorem writePaths_setup_ops (s : ClaudeProjectSetup) (clock : Clock) :
    writePaths (setup_ops s clock) = catalog_suffixes.map (fun t => s.project_path ++ t) := by
  rw [writePaths, writesOf_setup_ops]
  rfl

/-- The fourteen catalog paths of a run are pairwise distinct. -/
theorem writePaths_setup_ops_nodup (s : ClaudeProjectSetup) (clock : Clock) :
    (writePaths (setup_ops s clock)).Nodup := by
  rw [writePaths_setup_ops]
  apply List.Nodup.map (string_append_left_injective s.project_path)
  decide

/-- Lists all pass through `takeWhile` while every element satisfies the
predicate. -/
theorem takeWhile_append_of_all {α : Type} (p : α → Bool) (l1 l2 : List α)
    (h : ∀ c ∈ l1, p c = true) :
    (l1 ++ l2).takeWhile p = l1 ++ l2.takeWhile p := by
  induction l1 with
  | nil => simp
  | cons a l ih =>
    have ha := h a (List.mem_cons_self a l)
    simp only [List.cons_append, List.takeWhile_cons, ha, if_true]
    rw [ih fun c hc => h c (List.mem_cons_of_mem a hc)]
/-- C1: the claim states the CLI validator passes a string exactly when it is
non-empty and matches `^[A-Za-z0-9_-]+$`.  This is false in both directions:
"-" is non-empty and matches the pattern but the validator rejects it (the
code strips hyphens and underscores and then needs a non-empty alphanumeric
remainder), and "café" fails the ASCII pattern but the validator accepts it
(Python's `isalnum` accepts the non-ASCII letter é). -/
theorem validator_pattern_counterexample :
    specPatternAccepts "-" = true ∧ validate_project_name "-" = false ∧
    specPatternAccepts "café" = false ∧ validate_project_name "café" = true := by
  decide

/-- C1 (amended): for ASCII strings, the validator passes `s` exactly when
every character of `s` is in `[A-Za-z0-9_-]` and at least one character is a
letter or digit (so `s` is in particular non-empty). -/
theorem validator_ascii_characterization (s : String)
    (hascii : ∀ c ∈ s.data, c.toNat < 128) :
    validate_project_name s = true ↔
      ((∀ c ∈ s.data, specAllowedChar c = true) ∧ ∃ c ∈ s.data, asciiAlnumChar c = true) := by
  constructor
  · intro h
    rw [validate_eq, Bool.and_eq_true, List.all_eq_true] at h
    obtain ⟨hne, hall⟩ := h
    have hne2 : (s.data.filter fun x => x != '-').filter (fun x => x != '_') ≠ [] := by
      intro he
      rw [he] at hne
      simp at hne
    constructor
    · intro c hc
      by_cases h45 : c = '-'
      · subst h45
        decide
      by_cases h95 : c = '_'
      · subst h95
        decide
      · have hmem := (mem_strip_iff s c).mpr ⟨hc, h45, h95⟩
        have hpy := hall c hmem
        rw [pyIsAlnumChar_ascii (hascii c hc)] at hpy
        exact asciiAlnumChar_allowed hpy
    · obtain ⟨c, hcmem⟩ := List.exists_mem_of_ne_nil _ hne2
      obtain ⟨hcs, h45, h95⟩ := (mem_strip_iff s c).mp hcmem
      have hpy := hall c hcmem
      rw [pyIsAlnumChar_ascii (hascii c hcs)] at hpy
      exact ⟨c, hcs, hpy⟩
  · rintro ⟨hall, c, hcs, hca⟩
    rw [validate_eq, Bool.and_eq_true, List.all_eq_true]
    have hstrip := asciiAlnumChar_ne_strip hca
    have hcmem := (mem_strip_iff s c).mpr ⟨hcs, hstrip.1, hstrip.2⟩
    constructor
    · rw [List.isEmpty_eq_false.mpr (List.ne_nil_of_mem hcmem)]
      rfl
    · intro d hd
      obtain ⟨hds, hd45, hd95⟩ := (mem_strip_iff s d).mp hd
      rw [pyIsAlnumChar_ascii (hascii d hds)]
      rcases specAllowedChar_cases (hall d hds) with ha | h45 | h95
      · exact ha
      · exact absurd h45 hd45
      · exact absurd h95 hd95

/-- C1 witness: the characterization applied to the ASCII string "demo-app". -/
theorem validator_ascii_characterization_witness :
    (∀ c ∈ ("demo-app" : String).data, c.toNat < 128) ∧
      (validate_project_name "demo-app" = true ↔
        ((∀ c ∈ ("demo-app" : String).data, specAllowedChar c = true) ∧
          ∃ c ∈ ("demo-app" : String).data, asciiAlnumChar c = true)) :=
  ⟨by decide, validator_ascii_characterization "demo-app" (by decide)⟩

/-- C2: the claim states every name containing a character outside
`[A-Za-z0-9_-]` makes the run exit non-zero with zero filesystem writes.
Counterexample: "café" contains é, which is outside the pattern, yet the
validator accepts it (Python `isalnum` is Unicode-aware), the run performs
all 18 filesystem operations and exits with status 0. -/
theorem unicode_name_bypasses_validation :
    (∃ c ∈ ("café" : String).data, specAllowedChar c = false) ∧
    validate_project_name "café" = true ∧
    (main_run "café" none "/work" test_clock all_ok).exitCode = 0 ∧
    (main_run "café" none "/work" test_clock all_ok).performed.length = 18 := by
  decide

/-- C2 (amended): every name the validator rejects (those where removing all
hyphens and underscores leaves a string that is empty or not entirely
alphanumeric in Python's Unicode sense) makes `main` exit with status 1
having performed zero filesystem operations. -/
theorem rejected_name_no_fs_writes (s : String) (pp : Option String) (cwd : String)
    (clock : Clock) (ok : Nat → Bool) (h : validate_project_name s = false) :
    (main_run s pp cwd clock ok).performed = [] ∧
    (main_run s pp cwd clock ok).exitCode = 1 := by
  simp [main_run, h]

/-- C2 witness: the rejection property applied to the invalid name "my app". -/
theorem rejected_name_no_fs_writes_witness :
    validate_project_name "my app" = false ∧
      ((main_run "my app" none "/w" test_clock all_ok).performed = [] ∧
        (main_run "my app" none "/w" test_clock all_ok).exitCode = 1) :=
  ⟨by decide, rejected_name_no_fs_writes "my app" none "/w" test_clock all_ok (by decide)⟩

/-- C3: the claim states the target root is the literal `destination_path`
whenever one is provided.  Counterexample: the code tests Python truthiness,
not presence, so the provided empty-string destination is ignored and the
root falls back to `<cwd>/<project_name>`. -/
theorem empty_destination_path_counterexample :
    (setup_init "svc" (some "") "/home/user").project_path = "/home/user/svc" ∧
    (setup_init "svc" (some "") "/home/user").project_path ≠ "" := by
  decide

/-- C3 (amended): the target root is the literal `destination_path` when a
non-empty one is provided (e.g. `initialize("svc", "/tmp/projects")` roots
the tree at `/tmp/projects`, not `/tmp/projects/svc`), and
`<cwd>/<project_name>` when the destination is omitted (or empty, by Python
truthiness). -/
theorem target_root_resolution (n cwd d : String) (hd : d ≠ "") :
    (setup_init n (some d) cwd).project_path = d ∧
    (setup_init n none cwd).project_path = cwd ++ "/" ++ n ∧
    (setup_init "svc" (some "/tmp/projects") cwd).project_path = "/tmp/projects" := by
  have hb : (d == "") = false := beq_eq_false_iff_ne.mpr hd
  refine ⟨?_, rfl, rfl⟩
  simp [setup_init, pyTruthyOptStr, hb]

/-- C3 witness: root resolution applied to concrete name, cwd, and a
non-empty destination. -/
theorem target_root_resolution_witness :
    ("/tmp/dest" : String) ≠ "" ∧
      ((setup_init "svc" (some "/tmp/dest") "/home/user").project_path = "/tmp/dest" ∧
        (setup_init "svc" none "/home/user").project_path = "/home/user" ++ "/" ++ "svc" ∧
        (setup_init "svc" (some "/tmp/projects") "/home/user").project_path = "/tmp/projects") :=
  ⟨by decide, target_root_resolution "svc" "/home/user" "/tmp/dest" (by decide)⟩

/-- C10: the validator rejects every project name composed entirely of
hyphens and underscores (for example "-", "_", "--__"): stripping the
separators leaves the empty string, whose `isalnum()` is false; the process
exits with status 1 and performs no filesystem operation. -/
theorem all_separator_name_rejected (s : String)
    (h : ∀ c ∈ s.data, c = '-' ∨ c = '_') :
    validate_project_name s = false ∧
    ∀ pp cwd clock ok, (main_run s pp cwd clock ok).performed = [] ∧
      (main_run s pp cwd clock ok).exitCode = 1 := by
  have hval : validate_project_name s = false := by
    rw [validate_eq]
    have hl : (s.data.filter fun x => x != '-').filter (fun x => x != '_') = [] := by
      rw [List.filter_eq_nil_iff]
      intro a ha
      obtain ⟨ha1, ha2⟩ := List.mem_filter.mp ha
      rw [bne_iff_ne] at ha2
      rcases h a ha1 with h45 | h95
      · exact absurd h45 ha2
      · rw [bne_iff_ne]
        intro hne
        exact hne h95
    rw [hl]
    rfl
  refine ⟨hval, fun pp cwd clock ok => ?_⟩
  simp [main_run, hval]

/-- C10 witness: the all-separator name "--__" is rejected with exit status 1
and no filesystem operations. -/
theorem all_separator_name_rejected_witness :
    (∀ c ∈ ("--__" : String).data, c = '-' ∨ c = '_') ∧
      validate_project_name "--__" = false ∧
      (main_run "--__" none "/w" test_clock all_ok).performed = [] ∧
      (main_run "--__" none "/w" test_clock all_ok).exitCode = 1 :=
  ⟨by decide, (all_separator_name_rejected "--__" (by decide)).1,
    ((all_separator_name_rejected "--__" (by decide)).2 none "/w" test_clock all_ok).1,
    ((all_separator_name_rejected "--__" (by decide)).2 none "/w" test_clock all_ok).2⟩
/-- C4: for every valid project name `n`, a successful run of
`initialize(n, None)` writes exactly the fixed fourteen-file catalog under
`<cwd>/<n>` — settings.json, the five agent documents, the four docs files,
CLAUDE.md, PLAYBOOK.md, .gitignore and README.md — with no extra and no
missing files (list equality, in write order). -/
theorem valid_name_creates_exact_catalog (n cwd : String) (clock : Clock)
    (h : validate_project_name n = true) :
    writePaths (main_run n none cwd clock all_ok).performed =
      catalog_suffixes.map (fun t => cwd ++ "/" ++ n ++ t) := by
  rw [show main_run n none cwd clock all_ok
        = setup_project (setup_init n none cwd) clock all_ok from by simp [main_run, h]]
  show writePaths (execOps all_ok 0 (setup_ops (setup_init n none cwd) clock)).1 = _
  rw [execOps_all_ok]
  show writePaths (setup_ops (setup_init n none cwd) clock) = _
  rw [writePaths_setup_ops]
  rfl

/-- C4 witness: the catalog equality for the valid name "demo-app" in
cwd "/work". -/
theorem valid_name_creates_exact_catalog_witness :
    validate_project_name "demo-app" = true ∧
      writePaths (main_run "demo-app" none "/work" test_clock all_ok).performed =
        catalog_suffixes.map (fun t => "/work" ++ "/" ++ "demo-app" ++ t) :=
  ⟨by decide, valid_name_creates_exact_catalog "demo-app" "/work" test_clock (by decide)⟩

/-- C5: for every project name and timestamp, the settings document's deny
list is the fixed literal list, contains the patterns blocking read and write
of `.env`, `.env.*` and the `secrets/` directory, and the whole permissions
block is independent of the project name and timestamp; the rendered
settings.json is the fixed literal segments around the two interpolations. -/
theorem settings_deny_list_fixed (n n2 created created2 : String) :
    (claude_settings n created).permissions.deny =
      [ "Read(./.env)",
        "Read(./.env.*)",
        "Read(./secrets/**)",
        "Read(./config/credentials.json)",
        "Read(./private/**)",
        "Write(./.env)",
        "Write(./.env.*)",
        "Write(./secrets/**)" ] ∧
    "Read(./.env)" ∈ (claude_settings n created).permissions.deny ∧
    "Read(./.env.*)" ∈ (claude_settings n created).permissions.deny ∧
    "Read(./secrets/**)" ∈ (claude_settings n created).permissions.deny ∧
    "Write(./.env)" ∈ (claude_settings n created).permissions.deny ∧
    "Write(./.env.*)" ∈ (claude_settings n created).permissions.deny ∧
    "Write(./secrets/**)" ∈ (claude_settings n created).permissions.deny ∧
    (claude_settings n created).permissions = (claude_settings n2 created2).permissions ∧
    settings_json_template n created =
      settings_json_seg0 ++ n ++ settings_json_seg1 ++ created ++ settings_json_seg2 := by
  refine ⟨rfl, ?_, ?_, ?_, ?_, ?_, ?_, rfl, rfl⟩ <;> simp [claude_settings]

/-- C6: every generated markdown document whose template embeds the project
name contains the exact name verbatim at least once (the five agents, the
four docs files for every date, CLAUDE.md, PLAYBOOK.md and README.md), and
the README's first heading line is "# " followed by the name. -/
theorem project_name_embedded_in_documents (n : String)
    (h : validate_project_name n = true) :
    containsSubstr (mvp_planner_template n) n ∧
    containsSubstr (architect_template n) n ∧
    containsSubstr (code_reviewer_template n) n ∧
    containsSubstr (test_runner_template n) n ∧
    containsSubstr (debugger_template n) n ∧
    (∀ d, containsSubstr (scope_template n d) n) ∧
    (∀ d, containsSubstr (decisions_template n d) n) ∧
    (∀ d, containsSubstr (tasks_template n d) n) ∧
    (∀ d, containsSubstr (architecture_template n d) n) ∧
    containsSubstr (claude_md_template n) n ∧
    containsSubstr (playbook_template n) n ∧
    containsSubstr (readme_template n) n ∧
    firstLine (readme_template n) = "# " ++ n := by
  refine ⟨⟨mvp_planner_seg0, mvp_planner_seg1, rfl⟩,
    ⟨architect_seg0, architect_seg1, rfl⟩,
    ⟨code_reviewer_seg0, code_reviewer_seg1, rfl⟩,
    ⟨test_runner_seg0, test_runner_seg1, rfl⟩,
    ⟨debugger_seg0, debugger_seg1, rfl⟩,
    fun d => ⟨scope_seg0, scope_seg1 ++ d ++ scope_seg2,
      by simp [scope_template, String.append_assoc]⟩,
    fun d => ⟨decisions_seg0, decisions_seg1 ++ d ++ decisions_seg2,
      by simp [decisions_template, String.append_assoc]⟩,
    fun d => ⟨tasks_seg0, tasks_seg1 ++ d ++ tasks_seg2,
      by simp [tasks_template, String.append_assoc]⟩,
    fun d => ⟨architecture_seg0, architecture_seg1 ++ d ++ architecture_seg2,
      by simp [architecture_template, String.append_assoc]⟩,
    ⟨claude_md_seg0, claude_md_seg1, rfl⟩,
    ⟨playbook_seg0, playbook_seg1 ++ n ++ playbook_seg2 ++ n ++ playbook_seg3,
      by simp [playbook_template, String.append_assoc]⟩,
    ⟨readme_seg0, readme_seg1, rfl⟩, ?_⟩
  have hnl : ∀ c ∈ n.data, (c != '\n') = true := by
    intro c hc
    rw [bne_iff_ne]
    intro he
    subst he
    rcases valid_name_chars h _ hc with hpy | h45 | h95
    · exact absurd hpy (by decide)
    · exact absurd h45 (by decide)
    · exact absurd h95 (by decide)
  have hall : ∀ c ∈ readme_seg0.data ++ n.data, (c != '\n') = true := by
    intro c hc
    rcases List.mem_append.mp hc with h1 | h2
    · exact (by decide : ∀ c ∈ readme_seg0.data, (c != '\n') = true) c h1
    · exact hnl c h2
  apply String.ext
  show ((readme_seg0 ++ n ++ readme_seg1).data.takeWhile fun c => c != '\n') = ("# " ++ n).data
  simp only [String.data_append]
  rw [takeWhile_append_of_all _ _ _ hall]
  rw [show (readme_seg1.data.takeWhile fun c => c != '\n') = [] from rfl]
  simp [readme_seg0]

/-- C6 witness: the embedding properties for the valid name "demo-app". -/
theorem project_name_embedded_in_documents_witness :
    validate_project_name "demo-app" = true ∧
      (containsSubstr (mvp_planner_template "demo-app") "demo-app" ∧
       containsSubstr (architect_template "demo-app") "demo-app" ∧
       containsSubstr (code_reviewer_template "demo-app") "demo-app" ∧
       containsSubstr (test_runner_template "demo-app") "demo-app" ∧
       containsSubstr (debugger_template "demo-app") "demo-app" ∧
       (∀ d, containsSubstr (scope_template "demo-app" d) "demo-app") ∧
       (∀ d, containsSubstr (decisions_template "demo-app" d) "demo-app") ∧
       (∀ d, containsSubstr (tasks_template "demo-app" d) "demo-app") ∧
       (∀ d, containsSubstr (architecture_template "demo-app" d) "demo-app") ∧
       containsSubstr (claude_md_template "demo-app") "demo-app" ∧
       containsSubstr (playbook_template "demo-app") "demo-app" ∧
       containsSubstr (readme_template "demo-app") "demo-app" ∧
       firstLine (readme_template "demo-app") = "# " ++ "demo-app") :=
  ⟨by decide, project_name_embedded_in_documents "demo-app" (by decide)⟩

/-- C7: if the filesystem operation at index `k` of the step sequence is the
first to fail, the run performs exactly the `k`-operation prefix (no
subsequent step executes), reports the failing operation and exits with
status 1; no rollback happens: every file written by the performed prefix is
still readable with its written content, and every directory created by the
prefix is still present, whatever the filesystem held before. -/
theorem failure_aborts_without_rollback (s : ClaudeProjectSetup) (clock : Clock)
    (ok : Nat → Bool) (k : Nat)
    (hlt : ∀ j, j < k → ok j = true) (hk : ok k = false)
    (hlen : k < (setup_ops s clock).length) :
    (setup_project s clock ok).exitCode = 1 ∧
    (setup_project s clock ok).performed = (setup_ops s clock).take k ∧
    (setup_project s clock ok).error = (setup_ops s clock)[k]? ∧
    (setup_project s clock ok).error.isSome = true ∧
    (∀ fs0 p c, (p, c) ∈ writesOf ((setup_ops s clock).take k) →
      readFile (applyOps fs0 ((setup_ops s clock).take k)) p = some c) ∧
    (∀ fs0 p par ex, FsOp.mkdir p par ex ∈ (setup_ops s clock).take k →
      p ∈ (applyOps fs0 ((setup_ops s clock).take k)).dirs) := by
  have hx := execOps_first_fail ok (setup_ops s clock) 0 k
    (fun j hj => by simpa using hlt j hj) (by simpa using hk)
  obtain ⟨op, hop⟩ : ∃ op, (setup_ops s clock)[k]? = some op := by
    rw [List.getElem?_eq_getElem hlen]
    exact ⟨_, rfl⟩
  have hnd : (writePaths ((setup_ops s clock).take k)).Nodup := by
    apply List.Nodup.sublist _ (writePaths_setup_ops_nodup s clock)
    show (writePaths ((setup_ops s clock).take k)).Sublist (writePaths (setup_ops s clock))
    exact List.Sublist.map _ (List.Sublist.filterMap _ (List.take_sublist k _))
  refine ⟨?_, ?_, ?_, ?_, ?_, ?_⟩
  · simp [setup_project, hx, hop]
  · simp [setup_project, hx]
  · simp [setup_project, hx]
  · simp [setup_project, hx, hop]
  · intro fs0 p c hm
    exact readFile_applyOps_written _ _ _ _ hnd hm
  · intro fs0 p par ex hm
    exact mkdir_in_dirs _ _ _ _ _ hm

/-- C7 witness: the abort behaviour when operation 2 (the third mkdir) is the
first to fail during a concrete run. -/
theorem failure_aborts_without_rollback_witness :
    (∀ j, j < 2 → fail_at_two j = true) ∧ fail_at_two 2 = false ∧
    2 < (setup_ops (setup_init "app" none "/w") test_clock).length ∧
    ((setup_project (setup_init "app" none "/w") test_clock fail_at_two).exitCode = 1 ∧
     (setup_project (setup_init "app" none "/w") test_clock fail_at_two).performed =
       (setup_ops (setup_init "app" none "/w") test_clock).take 2 ∧
     (setup_project (setup_init "app" none "/w") test_clock fail_at_two).error =
       (setup_ops (setup_init "app" none "/w") test_clock)[2]? ∧
     (setup_project (setup_init "app" none "/w") test_clock fail_at_two).error.isSome = true ∧
     (∀ fs0 p c, (p, c) ∈ writesOf ((setup_ops (setup_init "app" none "/w") test_clock).take 2) →
       readFile (applyOps fs0 ((setup_ops (setup_init "app" none "/w") test_clock).take 2)) p =
         some c) ∧
     (∀ fs0 p par ex,
       FsOp.mkdir p par ex ∈ (setup_ops (setup_init "app" none "/w") test_clock).take 2 →
       p ∈ (applyOps fs0 ((setup_ops (setup_init "app" none "/w") test_clock).take 2)).dirs)) :=
  ⟨by decide, by decide, by decide,
    failure_aborts_without_rollback (setup_init "app" none "/w") test_clock fail_at_two 2
      (by decide) (by decide) (by decide)⟩

/-- C8: two runs against the same destination write the same path list; the
content of each of the nine files without a timestamp field is the same fixed
function of the name in every run, while each of the five timestamp-bearing
files carries its own run's clock reading; directory creation always passes
exist_ok=True, so it never fails on an existing directory; and every write
truncates and replaces: the final content at each catalog path is the written
content whatever the filesystem held before the run. -/
theorem rerun_idempotent_structure (s : ClaudeProjectSetup) (c c2 : Clock) :
    writePaths (setup_ops s c) = writePaths (setup_ops s c2) ∧
    (∀ clock fs0, readFile (applyOps fs0 (setup_ops s clock))
      (s.project_path ++ "/.claude/agents/mvp-planner.md") =
        some (mvp_planner_template s.project_name)) ∧
    (∀ clock fs0, readFile (applyOps fs0 (setup_ops s clock))
      (s.project_path ++ "/.claude/agents/architect.md") =
        some (architect_template s.project_name)) ∧
    (∀ clock fs0, readFile (applyOps fs0 (setup_ops s clock))
      (s.project_path ++ "/.claude/agents/code-reviewer.md") =
        some (code_reviewer_template s.project_name)) ∧
    (∀ clock fs0, readFile (applyOps fs0 (setup_ops s clock))
      (s.project_path ++ "/.claude/agents/test-runner.md") =
        some (test_runner_template s.project_name)) ∧
    (∀ clock fs0, readFile (applyOps fs0 (setup_ops s clock))
      (s.project_path ++ "/.claude/agents/debugger.md") =
        some (debugger_template s.project_name)) ∧
    (∀ clock fs0, readFile (applyOps fs0 (setup_ops s clock))
      (s.project_path ++ "/CLAUDE.md") = some (claude_md_template s.project_name)) ∧
    (∀ clock fs0, readFile (applyOps fs0 (setup_ops s clock))
      (s.project_path ++ "/PLAYBOOK.md") = some (playbook_template s.project_name)) ∧
    (∀ clock fs0, readFile (applyOps fs0 (setup_ops s clock))
      (s.project_path ++ "/.gitignore") = some gitignore_template) ∧
    (∀ clock fs0, readFile (applyOps fs0 (setup_ops s clock))
      (s.project_path ++ "/README.md") = some (readme_template s.project_name)) ∧
    (∀ clock fs0, readFile (applyOps fs0 (setup_ops s clock))
      (s.project_path ++ "/.claude/settings.json") =
        some (settings_json_template s.project_name (clock 0).isoformat)) ∧
    (∀ clock fs0, readFile (applyOps fs0 (setup_ops s clock))
      (s.project_path ++ "/docs/01-scope.md") =
        some (scope_template s.project_name (clock 1).ymd)) ∧
    (∀ clock fs0, readFile (applyOps fs0 (setup_ops s clock))
      (s.project_path ++ "/docs/02-decisions.md") =
        some (decisions_template s.project_name (clock 2).ymd)) ∧
    (∀ clock fs0, readFile (applyOps fs0 (setup_ops s clock))
      (s.project_path ++ "/docs/03-tasks.md") =
        some (tasks_template s.project_name (clock 3).ymd)) ∧
    (∀ clock fs0, readFile (applyOps fs0 (setup_ops s clock))
      (s.project_path ++ "/docs/architecture-design.md") =
        some (architecture_template s.project_name (clock 4).ymd)) ∧
    (∀ p par ex, FsOp.mkdir p par ex ∈ setup_ops s c → ex = true) ∧
    (∀ fs p, mkdirRaises fs p true = false) := by
  have hread : ∀ clock fs0 p cc, (p, cc) ∈ writesOf (setup_ops s clock) →
      readFile (applyOps fs0 (setup_ops s clock)) p = some cc :=
    fun clock fs0 p cc hm =>
      readFile_applyOps_written _ _ _ _ (writePaths_setup_ops_nodup s clock) hm
  refine ⟨by rw [writePaths_setup_ops, writePaths_setup_ops],
    fun clock fs0 => hread clock fs0 _ _ ?_, fun clock fs0 => hread clock fs0 _ _ ?_,
    fun clock fs0 => hread clock fs0 _ _ ?_, fun clock fs0 => hread clock fs0 _ _ ?_,
    fun clock fs0 => hread clock fs0 _ _ ?_, fun clock fs0 => hread clock fs0 _ _ ?_,
    fun clock fs0 => hread clock fs0 _ _ ?_, fun clock fs0 => hread clock fs0 _ _ ?_,
    fun clock fs0 => hread clock fs0 _ _ ?_, fun clock fs0 => hread clock fs0 _ _ ?_,
    fun clock fs0 => hread clock fs0 _ _ ?_, fun clock fs0 => hread clock fs0 _ _ ?_,
    fun clock fs0 => hread clock fs0 _ _ ?_, fun clock fs0 => hread clock fs0 _ _ ?_,
    ?_, fun fs p => rfl⟩
  case _ => rw [writesOf_setup_ops]; simp
  case _ => rw [writesOf_setup_ops]; simp
  case _ => rw [writesOf_setup_ops]; simp
  case _ => rw [writesOf_setup_ops]; simp
  case _ => rw [writesOf_setup_ops]; simp
  case _ => rw [writesOf_setup_ops]; simp
  case _ => rw [writesOf_setup_ops]; simp
  case _ => rw [writesOf_setup_ops]; simp
  case _ => rw [writesOf_setup_ops]; simp
  case _ => rw [writesOf_setup_ops]; simp
  case _ => rw [writesOf_setup_ops]; simp
  case _ => rw [writesOf_setup_ops]; simp
  case _ => rw [writesOf_setup_ops]; simp
  case _ => rw [writesOf_setup_ops]; simp
  case _ =>
    intro p par ex hm
    simp only [setup_ops, create_directory_structure, create_claude_settings,
      create_specialized_agents, create_documentation_structure, create_main_context_files,
      create_gitignore, create_readme, List.cons_append, List.nil_append, List.mem_cons,
      List.not_mem_nil, or_false, FsOp.mkdir.injEq, reduceCtorEq, false_or, or_false] at hm
    rcases hm with ⟨h1, h2, h3⟩ | ⟨h1, h2, h3⟩ | ⟨h1, h2, h3⟩ | ⟨h1, h2, h3⟩ <;> exact h3

/-- C9: the claim states the creation timestamp is captured once at startup
and all output is a pure function of (name, destination, that single
reading).  Counterexample: the code calls `datetime.now()` independently at
five sites; two clocks that agree on the startup reading but tick before the
docs templates are rendered produce different output, so the output is not a
function of the startup reading and two timestamp fields of one run can
disagree. -/
theorem timestamps_not_captured_once :
    midnight_clock 0 = frozen_clock 0 ∧
    setup_ops (setup_init "app" none "/w") midnight_clock ≠
      setup_ops (setup_init "app" none "/w") frozen_clock := by
  refine ⟨rfl, fun h => ?_⟩
  have h2 := congrArg writesOf h
  rw [writesOf_setup_ops, writesOf_setup_ops] at h2
  have h3 := congrArg (fun l => l[6]?) h2
  simp only [List.getElem?_cons_succ, List.getElem?_cons_zero, Option.some.injEq,
    Prod.mk.injEq, true_and] at h3
  have h4 := congrArg String.data h3
  simp only [scope_template, String.data_append, List.append_assoc] at h4
  have h5 := List.append_cancel_left h4
  have h6 := List.append_cancel_left h5
  have h7 := List.append_cancel_left h6
  have h8 := List.append_cancel_right h7
  exact absurd h8 (by decide)

/-- C9 (amended): no single startup timestamp exists; instead the five
`datetime.now()` call sites receive clock readings 0..4, and the whole
operation sequence (paths and contents) is a pure function of the setup state
and those five readings: two runs whose clocks agree on readings 0..4 are
byte-identical. -/
theorem output_determined_by_clock_readings (s : ClaudeProjectSetup) (c c2 : Clock)
    (h : ∀ i, i < 5 → c i = c2 i) :
    setup_ops s c = setup_ops s c2 := by
  have h0 := h 0 (by omega)
  have h1 := h 1 (by omega)
  have h2 := h 2 (by omega)
  have h3 := h 3 (by omega)
  have h4 := h 4 (by omega)
  rw [setup_ops, setup_ops, h0, h1, h2, h3, h4]

/-- C9 witness: two concrete clocks agreeing on readings 0..4 give the same
operation sequence. -/
theorem output_determined_by_clock_readings_witness :
    (∀ i, i < 5 → test_clock i = padded_clock i) ∧
      setup_ops (setup_init "app" none "/w") test_clock =
        setup_ops (setup_init "app" none "/w") padded_clock :=
  ⟨by decide,
    output_determined_by_clock_readings (setup_init "app" none "/w") test_clock padded_clock
      (by decide)⟩
